import Mathlib

/-!
PMS5003 frame decoder and BACnet fan control loop.

A shallow embedding of `main/pm25_sensor.c` (`pms5003_read_data`) and of
`main/server_task.c` (`check_sensor_and_control_fan`, `init_sensor_monitoring`).

Bytes are natural numbers below 256; `uint16_t` values are natural numbers
reduced modulo 65536 where the C code truncates.  The UART driver call
`uart_read_bytes` is a parameter of the decoder: a function from the driver
state and the requested size to the outcome of the read and the next state.
-/

namespace PMS5003

/-- Return codes of `pms5003_read_data`. -/
inductive esp_err_t where
  | ESP_OK
  | ESP_FAIL
  deriving DecidableEq, Repr

/-- The struct `pms5003_data_t` of `pm25_sensor.c`, every field a `uint16_t`. -/
structure pms5003_data_t where
  framelen : Nat
  pm10_standard : Nat
  pm25_standard : Nat
  pm100_standard : Nat
  pm10_env : Nat
  pm25_env : Nat
  pm100_env : Nat
  particles_03um : Nat
  particles_05um : Nat
  particles_10um : Nat
  particles_25um : Nat
  particles_50um : Nat
  particles_100um : Nat
  unused : Nat
  checksum : Nat
  deriving DecidableEq, Repr

/-- Outcome of one `uart_read_bytes` call: `none` is the driver error (return
value -1), `some bs` is a read that copied the bytes `bs` to the start of
`buffer` and returned `bs.length`. -/
abbrev RxBytes := Option (List Nat)

/-- The `uart_read_bytes` driver call on a driver state `σ`: given the state and
the requested size it yields the outcome and the next state. -/
abbrev Uart (σ : Type) := σ → Nat → RxBytes × σ

/-- The value `uart_read_bytes` returns, the `length` variable of the source. -/
def rx_length : RxBytes → Int
  | none => -1
  | some bs => (bs.length : Int)

/-- The buffer contents a read leaves at indices `0 .. length-1`. -/
def rx_buffer : RxBytes → List Nat
  | none => []
  | some bs => bs

/-- Array access `buffer[i]`. -/
def at_index (buffer : List Nat) (i : Nat) : Nat := buffer.getD i 0

/-- The loop test of line 75:
`length == 2 && buffer[0] == 0x42 && buffer[1] == 0x4D`. -/
def is_start (r : RxBytes) : Bool :=
  rx_length r == 2 && at_index (rx_buffer r) 0 == 0x42 && at_index (rx_buffer r) 1 == 0x4D

/-- The `while (1)` loop of lines 73-78.  Each iteration reads two bytes and
leaves the loop when they are the start bytes.  `fuel` bounds the number of
iterations; `none` means the loop is still running after `fuel` reads. -/
def sync_loop {σ : Type} (uart : Uart σ) : Nat → σ → Option σ
  | 0, _ => none
  | fuel + 1, s =>
    let r := uart s 2
    if is_start r.1 then some r.2 else sync_loop uart fuel r.2

/-- The expression `(buffer[i] << 8) | buffer[i+1]` stored in a `uint16_t`. -/
def be16 (hi lo : Nat) : Nat := ((hi <<< 8) ||| lo) % 65536

/-- Lines 88-102: the fifteen field assignments. -/
def parse_fields (buffer : List Nat) : pms5003_data_t :=
  { framelen := be16 (at_index buffer 0) (at_index buffer 1)
    pm10_standard := be16 (at_index buffer 2) (at_index buffer 3)
    pm25_standard := be16 (at_index buffer 4) (at_index buffer 5)
    pm100_standard := be16 (at_index buffer 6) (at_index buffer 7)
    pm10_env := be16 (at_index buffer 8) (at_index buffer 9)
    pm25_env := be16 (at_index buffer 10) (at_index buffer 11)
    pm100_env := be16 (at_index buffer 12) (at_index buffer 13)
    particles_03um := be16 (at_index buffer 14) (at_index buffer 15)
    particles_05um := be16 (at_index buffer 16) (at_index buffer 17)
    particles_10um := be16 (at_index buffer 18) (at_index buffer 19)
    particles_25um := be16 (at_index buffer 20) (at_index buffer 21)
    particles_50um := be16 (at_index buffer 22) (at_index buffer 23)
    particles_100um := be16 (at_index buffer 24) (at_index buffer 25)
    unused := be16 (at_index buffer 26) (at_index buffer 27)
    checksum := be16 (at_index buffer 28) (at_index buffer 29) }

/-- Lines 105-108: `uint16_t sum = 0x42 + 0x4D; for (i = 0; i < 28; i++) sum += buffer[i];`
with the `uint16_t` truncation applied at every step. -/
def checksum_loop (buffer : List Nat) : Nat :=
  (List.range 28).foldl (fun sum i => (sum + at_index buffer i) % 65536) (0x42 + 0x4D)

/-- Lines 81-115: what the function does with the outcome of the 30-byte read.
`data` is the caller's struct on entry; the result carries it on exit. -/
def decode_payload (r : RxBytes) (data : pms5003_data_t) : esp_err_t × pms5003_data_t :=
  if rx_length r != 30 then
    (esp_err_t.ESP_FAIL, data)
  else
    let buffer := rx_buffer r
    let data1 := parse_fields buffer
    let sum := checksum_loop buffer
    if sum != data1.checksum then (esp_err_t.ESP_FAIL, data1) else (esp_err_t.ESP_OK, data1)

/-- The function `pms5003_read_data`: the sync loop, the 30-byte read, the parse
and the checksum test.  The result is the return code, the caller's struct
after the call and the driver state; `none` means the sync loop has not ended
within `fuel` iterations. -/
def pms5003_read_data {σ : Type} (uart : Uart σ) (fuel : Nat) (s : σ)
    (data : pms5003_data_t) : Option (esp_err_t × pms5003_data_t × σ) :=
  match sync_loop uart fuel s with
  | none => none
  | some s1 =>
    let r := uart s1 30
    let out := decode_payload r.1 data
    some (out.1, out.2, r.2)

/-- A serial line as the driver sees it: the bytes still to arrive in order,
`none` marking a silence that outlasts the one-second read timeout. -/
abbrev Line := List (Option Nat)

/-- Collect up to `n` bytes from the line, stopping early at a silence (which
is consumed) or at the end of the line. -/
def line_take : Nat → Line → List Nat × Line
  | 0, l => ([], l)
  | _ + 1, [] => ([], [])
  | _ + 1, none :: l => ([], l)
  | n + 1, some b :: l =>
    let r := line_take n l
    (b :: r.1, r.2)

/-- The driver call over a `Line`: it never reports a driver error, returns
the bytes that arrive before the timeout and removes them from the line. -/
def line_read : Uart Line := fun l n =>
  let r := line_take n l
  (some r.1, r.2)

/-- The two start bytes followed by the given payload, all arriving without a gap. -/
def frame_line (payload : List Nat) : Line :=
  (0x42 :: 0x4D :: payload).map some

/-- A 30-byte payload whose checksum field matches: frame length 28,
PM1.0 = 5, PM2.5 = 300, PM10 = 12, checksum 0x0244. -/
def good_payload : List Nat :=
  [0x00, 0x1C, 0x00, 0x05, 0x01, 0x2C, 0x00, 0x0C,
   0x00, 0x05, 0x00, 0x09, 0x00, 0x0C, 0x03, 0x00,
   0x00, 0x80, 0x00, 0x20, 0x00, 0x04, 0x00, 0x02,
   0x00, 0x01, 0x97, 0x00, 0x02, 0x44]

/-- The buffer with bit `k` of the byte at index `i` inverted. -/
def flip_bit (buffer : List Nat) (i k : Nat) : List Nat :=
  buffer.set i (at_index buffer i ^^^ (1 <<< k))

/-- The driver state after `k` two-byte reads of the sync loop. -/
def skip_reads {σ : Type} (uart : Uart σ) : Nat → σ → σ
  | 0, s => s
  | k + 1, s => skip_reads uart k (uart s 2).2

/-- One junk byte followed by the start bytes and `good_payload`. -/
def junk_then_frame : Line := some 0x00 :: frame_line good_payload

/-- The start bytes and three payload bytes, then a silence, then the start
bytes and `good_payload`. -/
def short_then_frame : Line :=
  [some 0x42, some 0x4D, some 0x00, some 0x1C, some 0x00, none] ++ frame_line good_payload

/-- The start bytes and three payload bytes, then two silences, then the
start bytes and `good_payload`. -/
def short_silence_frame : Line :=
  [some 0x42, some 0x4D, some 0x00, some 0x1C, some 0x00, none, none]
    ++ frame_line good_payload

/-- The caller's struct before the first call, all fields zero. -/
def data_zero : pms5003_data_t :=
  { framelen := 0, pm10_standard := 0, pm25_standard := 0, pm100_standard := 0,
    pm10_env := 0, pm25_env := 0, pm100_env := 0, particles_03um := 0,
    particles_05um := 0, particles_10um := 0, particles_25um := 0,
    particles_50um := 0, particles_100um := 0, unused := 0, checksum := 0 }

end PMS5003

namespace ServerTask

/-- The enumeration `BACNET_BINARY_PV` of the BACnet stack. -/
inductive BACNET_BINARY_PV where
  | BINARY_INACTIVE
  | BINARY_ACTIVE
  | BINARY_NULL
  deriving DecidableEq, Repr

/-- The `float` operations the control function uses: the literals `0.0`,
`25.0` and `0.1f`, the addition and the comparison `>`. -/
structure FloatOps (F : Type) where
  lit_0_0 : F
  lit_25_0 : F
  lit_0_1f : F
  add : F → F → F
  gt : F → F → Bool

/-- Exact rational arithmetic as an instance of the float operations. -/
def ratOps : FloatOps ℚ :=
  { lit_0_0 := 0
    lit_25_0 := 25
    lit_0_1f := 1 / 10
    add := fun a b => a + b
    gt := fun a b => decide (b < a) }

/-- One call of `Binary_Output_Present_Value_Set`: instance, value, priority. -/
structure BoWrite where
  instance_id : Nat
  value : BACNET_BINARY_PV
  priority : Nat
  deriving DecidableEq, Repr

/-- One call of `Binary_Value_Present_Value_Set`: instance, value. -/
structure BvWrite where
  instance_id : Nat
  value : BACNET_BINARY_PV
  deriving DecidableEq, Repr

/-- The object store of the BACnet stack as the control function sees it:
validity and present value of the analog-value, binary-output and
binary-value objects, and the calls of the two setters made so far. -/
structure Registry (F : Type) where
  av_valid : Nat → Bool
  av_present_value : Nat → F
  bo_valid : Nat → Bool
  bo_present_value : Nat → BACNET_BINARY_PV
  bv_valid : Nat → Bool
  bv_present_value : Nat → BACNET_BINARY_PV
  bo_writes : List BoWrite
  bv_writes : List BvWrite

/-- Modelled from the spec: `Binary_Output_Present_Value_Set` of the BACnet
stack, the actuator sink `set_state`.  The present value of the instance
becomes the value written and the call is recorded. -/
def Binary_Output_Present_Value_Set {F : Type} (reg : Registry F) (inst : Nat)
    (value : BACNET_BINARY_PV) (priority : Nat) : Registry F :=
  { reg with
    bo_present_value := fun i => if i = inst then value else reg.bo_present_value i
    bo_writes := reg.bo_writes ++ [{ instance_id := inst, value := value, priority := priority }] }

/-- Modelled from the spec: `Binary_Value_Present_Value_Set` of the BACnet
stack, the fault sink `set_state`.  The present value of the instance becomes
the value written and the call is recorded. -/
def Binary_Value_Present_Value_Set {F : Type} (reg : Registry F) (inst : Nat)
    (value : BACNET_BINARY_PV) : Registry F :=
  { reg with
    bv_present_value := fun i => if i = inst then value else reg.bv_present_value i
    bv_writes := reg.bv_writes ++ [{ instance_id := inst, value := value }] }

def PM2_5_OBJECT_INSTANCE : Nat := 1
def PM2_5_SETPOINT_OBJECT_INSTANCE : Nat := 3
def FAN_COMMAND_OBJECT_INSTANCE : Nat := 0
def SENSOR_ERROR_OBJECT_INSTANCE : Nat := 0
def SENSOR_TIMEOUT_MS : Nat := 30000

/-- The file-scope variables `last_sensor_update_time` (a `uint32_t`) and
`sensor_has_data`. -/
structure Monitor where
  last_sensor_update_time : Nat
  sensor_has_data : Bool
  deriving DecidableEq, Repr

/-- The expression `(uint32_t)(esp_timer_get_time() / 1000)` for a timer value
in microseconds. -/
def millis (timer_us : Nat) : Nat := (timer_us / 1000) % 4294967296

/-- Subtraction of two `uint32_t` values. -/
def sub_u32 (a b : Nat) : Nat := (a + 4294967296 - b % 4294967296) % 4294967296

/-- The function `init_sensor_monitoring`, lines 145-150. -/
def init_sensor_monitoring (timer_us : Nat) : Monitor :=
  { last_sensor_update_time := millis timer_us, sensor_has_data := false }

/-- Lines 51 and 57-66: the value of `pm25_value` after the first `if`. -/
def read_pm25 {F : Type} (ops : FloatOps F) (reg : Registry F) : F :=
  if reg.av_valid PM2_5_OBJECT_INSTANCE then reg.av_present_value PM2_5_OBJECT_INSTANCE
  else ops.lit_0_0

/-- Lines 57-66: the file-scope variables after the first `if`; `timer1` is
the value `esp_timer_get_time()` returns at line 62. -/
def update_monitor {F : Type} (reg : Registry F) (timer1 : Nat) (mon : Monitor) : Monitor :=
  if reg.av_valid PM2_5_OBJECT_INSTANCE then
    { last_sensor_update_time := millis timer1, sensor_has_data := true }
  else mon

/-- Lines 52 and 69-74: the value of `setpoint_value`. -/
def read_setpoint {F : Type} (ops : FloatOps F) (reg : Registry F) : F :=
  if reg.av_valid PM2_5_SETPOINT_OBJECT_INSTANCE then
    reg.av_present_value PM2_5_SETPOINT_OBJECT_INSTANCE
  else ops.lit_25_0

/-- Lines 80-94: the value of `sensor_error`; `timer2` is the value
`esp_timer_get_time()` returns at line 81. -/
def freshness_check (mon : Monitor) (timer2 : Nat) : Bool :=
  if mon.sensor_has_data then
    let current_time := millis timer2
    let time_since_update := sub_u32 current_time mon.last_sensor_update_time
    if time_since_update > SENSOR_TIMEOUT_MS then true else false
  else true

/-- Lines 97-124: the fan control block. -/
def control_fan {F : Type} (ops : FloatOps F) (pm25_value setpoint_value : F)
    (reg : Registry F) : Registry F :=
  if reg.bo_valid FAN_COMMAND_OBJECT_INSTANCE then
    let current_fan_state := reg.bo_present_value FAN_COMMAND_OBJECT_INSTANCE
    if ops.gt pm25_value (ops.add setpoint_value ops.lit_0_1f) then
      if current_fan_state != BACNET_BINARY_PV.BINARY_ACTIVE then
        Binary_Output_Present_Value_Set reg FAN_COMMAND_OBJECT_INSTANCE
          BACNET_BINARY_PV.BINARY_ACTIVE 16
      else reg
    else
      if current_fan_state != BACNET_BINARY_PV.BINARY_INACTIVE then
        Binary_Output_Present_Value_Set reg FAN_COMMAND_OBJECT_INSTANCE
          BACNET_BINARY_PV.BINARY_INACTIVE 16
      else reg
  else reg

/-- Lines 127-137: the sensor-error block. -/
def set_error_state {F : Type} (sensor_error : Bool) (reg : Registry F) : Registry F :=
  if reg.bv_valid SENSOR_ERROR_OBJECT_INSTANCE then
    let current_error_state := reg.bv_present_value SENSOR_ERROR_OBJECT_INSTANCE
    let desired_error_state :=
      if sensor_error then BACNET_BINARY_PV.BINARY_ACTIVE else BACNET_BINARY_PV.BINARY_INACTIVE
    if current_error_state != desired_error_state then
      Binary_Value_Present_Value_Set reg SENSOR_ERROR_OBJECT_INSTANCE desired_error_state
    else reg
  else reg

/-- The fan state the threshold test of line 101 asks for: active when
`pm25_value > setpoint_value + 0.1f`, inactive otherwise. -/
def wanted_fan_state {F : Type} (ops : FloatOps F) (reg : Registry F) : BACNET_BINARY_PV :=
  if ops.gt (read_pm25 ops reg) (ops.add (read_setpoint ops reg) ops.lit_0_1f) then
    BACNET_BINARY_PV.BINARY_ACTIVE
  else BACNET_BINARY_PV.BINARY_INACTIVE

/-- What one call of `check_sensor_and_control_fan` leaves behind: the object
store, the file-scope variables and the local `sensor_error`. -/
structure Tick (F : Type) where
  reg : Registry F
  mon : Monitor
  sensor_error : Bool

/-- The function `check_sensor_and_control_fan`, lines 49-138.  `timer1` and
`timer2` are the values of `esp_timer_get_time()` at lines 62 and 81. -/
def check_sensor_and_control_fan {F : Type} (ops : FloatOps F) (timer1 timer2 : Nat)
    (mon : Monitor) (reg : Registry F) : Tick F :=
  let pm25_value := read_pm25 ops reg
  let mon1 := update_monitor reg timer1 mon
  let setpoint_value := read_setpoint ops reg
  let sensor_error := freshness_check mon1 timer2
  let reg1 := control_fan ops pm25_value setpoint_value reg
  let reg2 := set_error_state sensor_error reg1
  { reg := reg2, mon := mon1, sensor_error := sensor_error }

/-- An object store over the rationals in which every object the control
function uses is valid: PM2.5 and setpoint as given, fan command as given,
sensor-error flag inactive, no setter called yet. -/
def sample_registry (pm25 setpoint : ℚ) (fan : BACNET_BINARY_PV) : Registry ℚ :=
  { av_valid := fun _ => true
    av_present_value := fun i => if i = PM2_5_OBJECT_INSTANCE then pm25 else setpoint
    bo_valid := fun _ => true
    bo_present_value := fun _ => fan
    bv_valid := fun _ => true
    bv_present_value := fun _ => BACNET_BINARY_PV.BINARY_INACTIVE
    bo_writes := []
    bv_writes := [] }

end ServerTask

namespace ServerTask

/-- An object store over the rationals in which the PM2.5 object is not
valid and every other object is: setpoint and fan command as given. -/
def pm25_missing_registry (setpoint : ℚ) (fan : BACNET_BINARY_PV) : Registry ℚ :=
  { av_valid := fun i => if i = PM2_5_OBJECT_INSTANCE then false else true
    av_present_value := fun _ => setpoint
    bo_valid := fun _ => true
    bo_present_value := fun _ => fan
    bv_valid := fun _ => true
    bv_present_value := fun _ => BACNET_BINARY_PV.BINARY_INACTIVE
    bo_writes := []
    bv_writes := [] }

end ServerTask

namespace PMS5003

/-- The file-scope variables of `pm25_sensor.c`, lines 21-24: the three
stored values and whether `pm_mutex` is a handle (`true`) or `NULL`.  A
`float` holding a converted `uint16_t` is an exact integer, so the stored
values are rationals. -/
structure Store where
  current_pm1_0 : ℚ
  current_pm2_5 : ℚ
  current_pm10 : ℚ
  pm_mutex : Bool
  deriving DecidableEq, Repr

/-- The initialisers of lines 21-24. -/
def store_boot : Store :=
  { current_pm1_0 := 0, current_pm2_5 := 0, current_pm10 := 0, pm_mutex := false }

/-- Line 159 of `pm25_sensor_init`: `pm_mutex = xSemaphoreCreateMutex()`;
`created` tells whether a handle came back. -/
def pm25_sensor_init (created : Bool) (st : Store) : Store :=
  { st with pm_mutex := created }

/-- The cast `(float)x` of a `uint16_t`: every integer below 65536 is a
`float` value, so the cast is exact. -/
def float_of_u16 (x : Nat) : ℚ := (x : ℚ)

/-- The three assignments of lines 131-133 (and 142-144). -/
def store_values (data : pms5003_data_t) (st : Store) : Store :=
  { st with
    current_pm1_0 := float_of_u16 data.pm10_standard
    current_pm2_5 := float_of_u16 data.pm25_standard
    current_pm10 := float_of_u16 data.pm100_standard }

/-- Lines 128-145: the store after a successful read; `taken` is whether
`xSemaphoreTake(pm_mutex, portMAX_DELAY)` returned `pdTRUE`. -/
def publish_reading (taken : Bool) (data : pms5003_data_t) (st : Store) : Store :=
  if st.pm_mutex then
    if taken then store_values data st else st
  else store_values data st

/-- One pass of the `for (;;)` body of `pms5003_read_task`, lines 126-148:
the store, the task's `data` struct and the driver state afterwards; `none`
when `pms5003_read_data` has not returned within `fuel` sync reads. -/
def read_task_iteration {σ : Type} (uart : Uart σ) (fuel : Nat) (taken : Bool) (s : σ)
    (data : pms5003_data_t) (st : Store) : Option (Store × pms5003_data_t × σ) :=
  match pms5003_read_data uart fuel s data with
  | none => none
  | some (ret, data1, s1) =>
    if ret == esp_err_t.ESP_OK then some (publish_reading taken data1 st, data1, s1)
    else some (st, data1, s1)

/-- The function `pm25_get_pm1_0`, lines 177-192. -/
def pm25_get_pm1_0 (taken : Bool) (st : Store) : ℚ :=
  if st.pm_mutex then
    if taken then st.current_pm1_0 else 0
  else st.current_pm1_0

/-- The function `pm25_get_pm2_5`, lines 195-210. -/
def pm25_get_pm2_5 (taken : Bool) (st : Store) : ℚ :=
  if st.pm_mutex then
    if taken then st.current_pm2_5 else 0
  else st.current_pm2_5

/-- The function `pm25_get_pm10`, lines 213-228. -/
def pm25_get_pm10 (taken : Bool) (st : Store) : ℚ :=
  if st.pm_mutex then
    if taken then st.current_pm10 else 0
  else st.current_pm10

/-- A struct whose three standard concentrations are as given, other fields zero. -/
def reading_of (pm1_0 pm2_5 pm10 : Nat) : pms5003_data_t :=
  { data_zero with pm10_standard := pm1_0, pm25_standard := pm2_5, pm100_standard := pm10 }

/-- A whole call made by one of the two tasks while it holds the mutex: the
publish of lines 129-134 or one of the three getters. -/
inductive StoreCall where
  | publish (data : pms5003_data_t)
  | get_pm1_0
  | get_pm2_5
  | get_pm10
  deriving DecidableEq, Repr

/-- Run the calls in the given order, every `xSemaphoreTake` succeeding, and
collect what the getters return. -/
def run_calls : Store → List StoreCall → List ℚ
  | _, [] => []
  | st, StoreCall.publish data :: rest => run_calls (publish_reading true data st) rest
  | st, StoreCall.get_pm1_0 :: rest => pm25_get_pm1_0 true st :: run_calls st rest
  | st, StoreCall.get_pm2_5 :: rest => pm25_get_pm2_5 true st :: run_calls st rest
  | st, StoreCall.get_pm10 :: rest => pm25_get_pm10 true st :: run_calls st rest

/-- The three getter calls of a consumer, in order. -/
def consumer_reads : List StoreCall :=
  [StoreCall.get_pm1_0, StoreCall.get_pm2_5, StoreCall.get_pm10]

/-- The consumer's three reads with one publish placed after the first `k` of them. -/
def publish_after (k : Nat) (data : pms5003_data_t) : List StoreCall :=
  consumer_reads.take k ++ [StoreCall.publish data] ++ consumer_reads.drop k

/-- The start bytes and `good_payload` with its last byte changed, so that the
checksum test fails. -/
def bad_checksum_line : Line := frame_line (good_payload.set 29 0x45)

end PMS5003

namespace DisplayTask

def LINE_HEIGHT : Nat := 10
def LINE_SPACING : Nat := 2
def LEFT_MARGIN : Nat := 5
def TOP_MARGIN : Nat := 5

def LINE1_Y : Nat := TOP_MARGIN
def LINE2_Y : Nat := LINE1_Y + LINE_HEIGHT + LINE_SPACING
def LINE3_Y : Nat := LINE2_Y + LINE_HEIGHT + LINE_SPACING + LINE_HEIGHT
def LINE4_Y : Nat := LINE3_Y + LINE_HEIGHT + LINE_SPACING
def LINE5_Y : Nat := LINE4_Y + LINE_HEIGHT + LINE_SPACING
def LINE6_Y : Nat := LINE5_Y + LINE_HEIGHT + LINE_SPACING + LINE_HEIGHT
def LINE7_Y : Nat := LINE6_Y + LINE_HEIGHT + LINE_SPACING + LINE_HEIGHT
def LINE8_Y : Nat := LINE7_Y + LINE_HEIGHT + LINE_SPACING
def LINE9_Y : Nat := LINE8_Y + LINE_HEIGHT + LINE_SPACING

def DATA_X_PM : Nat := 65
def DATA_X_SETPOINT : Nat := 75
def DATA_X_IP : Nat := 35
def DATA_X_FAN : Nat := 85
def DATA_X_ERROR : Nat := 95

def PM1_0_OBJECT_INSTANCE : Nat := 0
def PM2_5_OBJECT_INSTANCE : Nat := 1
def PM10_OBJECT_INSTANCE : Nat := 2
def PM2_5_SETPOINT_INSTANCE : Nat := 3
def FAN_COMMAND_OBJECT_INSTANCE : Nat := 0
def FAN_STATUS_OBJECT_INSTANCE : Nat := 0
def SENSOR_ERROR_OBJECT_INSTANCE : Nat := 0

def DISP_RED : Nat := 0xF800
def DISP_GREEN : Nat := 0x07E0
def DISP_WHITE : Nat := 0xFFFF
def DISP_BLACK : Nat := 0x0000
def DISP_YELLOW : Nat := 0xFFE0
def DISP_CYAN : Nat := 0x07FF

/-- A call of the display driver: `display_clear`, `display_draw_string` or
`display_fill_rect`, with its arguments. -/
inductive DisplayOp where
  | clear (color : Nat)
  | draw_string (x y : Nat) (text : String) (color bg_color : Nat)
  | fill_rect (x y width height : Nat) (color : Nat)
  deriving DecidableEq, Repr

/-- The struct `display_cache_t`, lines 57-66; the character arrays hold
C strings. -/
structure display_cache_t (F : Type) where
  ip_addr : String
  pm10 : F
  pm25 : F
  pm100 : F
  setpoint : F
  fan_cmd : String
  fan_status : String
  sensor_error : String

/-- The `float` operations of the display task: the literals `0.0`, `0.1f`,
`35.0f`, `12.0f` and `-100.0f`, subtraction, `fabsf`, the comparison `>`, and
`snprintf` with the format `%.1f ug/m3`. -/
structure DisplayFloat (F : Type) where
  lit_0_0 : F
  lit_0_1f : F
  lit_35_0f : F
  lit_12_0f : F
  lit_m100_0f : F
  sub : F → F → F
  fabsf : F → F
  gt : F → F → Bool
  fmt_1f : F → String

/-- The integer nearest to a rational, a tie going to the even neighbour. -/
def round_half_even (x : ℚ) : Int :=
  if x - ⌊x⌋ < 1 / 2 then ⌊x⌋
  else if 1 / 2 < x - ⌊x⌋ then ⌊x⌋ + 1
  else if ⌊x⌋ % 2 = 0 then ⌊x⌋ else ⌊x⌋ + 1

/-- The text `snprintf` produces for the format `%.1f ug/m3`: the sign of a
negative value (kept when the digits are all zero), the exact magnitude
rounded to one decimal with a tie going to the even digit, and the unit. -/
def fmt_tenths (q : ℚ) : String :=
  let n : Nat := (round_half_even (|q| * 10)).toNat
  (if q < 0 then "-" else "") ++ toString (n / 10) ++ "." ++ toString (n % 10) ++ " ug/m3"

/-- Exact rational arithmetic as an instance of the display float operations. -/
def ratDisplay : DisplayFloat ℚ :=
  { lit_0_0 := 0
    lit_0_1f := 1 / 10
    lit_35_0f := 35
    lit_12_0f := 12
    lit_m100_0f := -100
    sub := fun a b => a - b
    fabsf := fun a => |a|
    gt := fun a b => decide (b < a)
    fmt_1f := fmt_tenths }

/-- What the display task reads on one tick: the string `get_device_ip`
produces, the object store, and the binary-input objects. -/
structure Sources (F : Type) where
  device_ip : String
  reg : ServerTask.Registry F
  bi_valid : Nat → Bool
  bi_present_value : Nat → ServerTask.BACNET_BINARY_PV

/-- The function `get_pm10_value`, lines 94-100. -/
def get_pm10_value {F : Type} (fl : DisplayFloat F) (src : Sources F) : F :=
  if src.reg.av_valid PM1_0_OBJECT_INSTANCE then src.reg.av_present_value PM1_0_OBJECT_INSTANCE
  else fl.lit_0_0

/-- The function `get_pm25_value`, lines 105-111. -/
def get_pm25_value {F : Type} (fl : DisplayFloat F) (src : Sources F) : F :=
  if src.reg.av_valid PM2_5_OBJECT_INSTANCE then src.reg.av_present_value PM2_5_OBJECT_INSTANCE
  else fl.lit_0_0

/-- The function `get_pm100_value`, lines 116-122. -/
def get_pm100_value {F : Type} (fl : DisplayFloat F) (src : Sources F) : F :=
  if src.reg.av_valid PM10_OBJECT_INSTANCE then src.reg.av_present_value PM10_OBJECT_INSTANCE
  else fl.lit_0_0

/-- The function `get_pm25_setpoint`, lines 127-133. -/
def get_pm25_setpoint {F : Type} (fl : DisplayFloat F) (src : Sources F) : F :=
  if src.reg.av_valid PM2_5_SETPOINT_INSTANCE then
    src.reg.av_present_value PM2_5_SETPOINT_INSTANCE
  else fl.lit_0_0

/-- The function `get_fan_command_status`, lines 138-145. -/
def get_fan_command_status {F : Type} (src : Sources F) : String :=
  if src.reg.bo_valid FAN_COMMAND_OBJECT_INSTANCE then
    let state := src.reg.bo_present_value FAN_COMMAND_OBJECT_INSTANCE
    if state == ServerTask.BACNET_BINARY_PV.BINARY_ACTIVE then "ON" else "OFF"
  else "ERR"

/-- The function `get_fan_actual_status`, lines 150-157. -/
def get_fan_actual_status {F : Type} (src : Sources F) : String :=
  if src.bi_valid FAN_STATUS_OBJECT_INSTANCE then
    let state := src.bi_present_value FAN_STATUS_OBJECT_INSTANCE
    if state == ServerTask.BACNET_BINARY_PV.BINARY_ACTIVE then "ON" else "OFF"
  else "ERR"

/-- The function `get_sensor_error_status`, lines 162-169. -/
def get_sensor_error_status {F : Type} (src : Sources F) : String :=
  if src.reg.bv_valid SENSOR_ERROR_OBJECT_INSTANCE then
    let state := src.reg.bv_present_value SENSOR_ERROR_OBJECT_INSTANCE
    if state == ServerTask.BACNET_BINARY_PV.BINARY_ACTIVE then "ERROR" else "OK"
  else "ERR"

/-- Lines 181-194: the local `current` filled from the getters. -/
def read_current {F : Type} (fl : DisplayFloat F) (src : Sources F) : display_cache_t F :=
  { ip_addr := src.device_ip
    pm10 := get_pm10_value fl src
    pm25 := get_pm25_value fl src
    pm100 := get_pm100_value fl src
    setpoint := get_pm25_setpoint fl src
    fan_cmd := get_fan_command_status src
    fan_status := get_fan_actual_status src
    sensor_error := get_sensor_error_status src }

/-- The nine static label draws of lines 201-209. -/
def static_labels : List DisplayOp :=
  [DisplayOp.draw_string LEFT_MARGIN LINE1_Y "ID: 123456" DISP_WHITE DISP_BLACK,
   DisplayOp.draw_string LEFT_MARGIN LINE2_Y "IP:" DISP_WHITE DISP_BLACK,
   DisplayOp.draw_string LEFT_MARGIN LINE3_Y "PM1.0:" DISP_CYAN DISP_BLACK,
   DisplayOp.draw_string LEFT_MARGIN LINE4_Y "PM2.5:" DISP_WHITE DISP_BLACK,
   DisplayOp.draw_string LEFT_MARGIN LINE5_Y "PM10:" DISP_CYAN DISP_BLACK,
   DisplayOp.draw_string LEFT_MARGIN LINE6_Y "Setpoint:" DISP_WHITE DISP_BLACK,
   DisplayOp.draw_string LEFT_MARGIN LINE7_Y "FAN ON/OFF:" DISP_WHITE DISP_BLACK,
   DisplayOp.draw_string LEFT_MARGIN LINE8_Y "FAN STATUS:" DISP_WHITE DISP_BLACK,
   DisplayOp.draw_string LEFT_MARGIN LINE9_Y "Sensor Error:" DISP_WHITE DISP_BLACK]

/-- Lines 197-212: the driver calls of the first-paint block. -/
def first_paint (screen_initialized : Bool) : List DisplayOp :=
  if !screen_initialized then DisplayOp.clear DISP_BLACK :: static_labels else []

/-- Lines 217-222: the IP address. -/
def update_ip {F : Type} (last current : display_cache_t F) : List DisplayOp :=
  if last.ip_addr != current.ip_addr then
    [DisplayOp.fill_rect DATA_X_IP LINE2_Y 100 LINE_HEIGHT DISP_BLACK,
     DisplayOp.draw_string DATA_X_IP LINE2_Y current.ip_addr DISP_WHITE DISP_BLACK]
  else []

/-- Lines 225-231: PM1.0. -/
def update_pm10 {F : Type} (fl : DisplayFloat F) (last current : display_cache_t F) :
    List DisplayOp :=
  if fl.gt (fl.fabsf (fl.sub last.pm10 current.pm10)) fl.lit_0_1f then
    [DisplayOp.fill_rect DATA_X_PM LINE3_Y 80 LINE_HEIGHT DISP_BLACK,
     DisplayOp.draw_string DATA_X_PM LINE3_Y (fl.fmt_1f current.pm10) DISP_CYAN DISP_BLACK]
  else []

/-- Lines 239-241: the colour of the PM2.5 value. -/
def pm25_color {F : Type} (fl : DisplayFloat F) (pm25 : F) : Nat :=
  if fl.gt pm25 fl.lit_35_0f then DISP_RED
  else if fl.gt pm25 fl.lit_12_0f then DISP_YELLOW
  else DISP_GREEN

/-- Lines 234-244: PM2.5. -/
def update_pm25 {F : Type} (fl : DisplayFloat F) (last current : display_cache_t F) :
    List DisplayOp :=
  if fl.gt (fl.fabsf (fl.sub last.pm25 current.pm25)) fl.lit_0_1f then
    [DisplayOp.fill_rect DATA_X_PM LINE4_Y 80 LINE_HEIGHT DISP_BLACK,
     DisplayOp.draw_string DATA_X_PM LINE4_Y (fl.fmt_1f current.pm25)
       (pm25_color fl current.pm25) DISP_BLACK]
  else []

/-- Lines 247-253: PM10. -/
def update_pm100 {F : Type} (fl : DisplayFloat F) (last current : display_cache_t F) :
    List DisplayOp :=
  if fl.gt (fl.fabsf (fl.sub last.pm100 current.pm100)) fl.lit_0_1f then
    [DisplayOp.fill_rect DATA_X_PM LINE5_Y 80 LINE_HEIGHT DISP_BLACK,
     DisplayOp.draw_string DATA_X_PM LINE5_Y (fl.fmt_1f current.pm100) DISP_CYAN DISP_BLACK]
  else []

/-- Lines 256-262: the setpoint. -/
def update_setpoint {F : Type} (fl : DisplayFloat F) (last current : display_cache_t F) :
    List DisplayOp :=
  if fl.gt (fl.fabsf (fl.sub last.setpoint current.setpoint)) fl.lit_0_1f then
    [DisplayOp.fill_rect DATA_X_SETPOINT LINE6_Y 80 LINE_HEIGHT DISP_BLACK,
     DisplayOp.draw_string DATA_X_SETPOINT LINE6_Y (fl.fmt_1f current.setpoint)
       DISP_WHITE DISP_BLACK]
  else []

/-- Lines 265-271: the fan command. -/
def update_fan_cmd {F : Type} (last current : display_cache_t F) : List DisplayOp :=
  if last.fan_cmd != current.fan_cmd then
    let fan_color := if current.fan_cmd == "ON" then DISP_GREEN else DISP_WHITE
    [DisplayOp.fill_rect DATA_X_FAN LINE7_Y 30 LINE_HEIGHT DISP_BLACK,
     DisplayOp.draw_string DATA_X_FAN LINE7_Y current.fan_cmd fan_color DISP_BLACK]
  else []

/-- Lines 274-280: the fan status. -/
def update_fan_status {F : Type} (last current : display_cache_t F) : List DisplayOp :=
  if last.fan_status != current.fan_status then
    let status_color := if current.fan_status == "ON" then DISP_GREEN else DISP_WHITE
    [DisplayOp.fill_rect DATA_X_FAN LINE8_Y 30 LINE_HEIGHT DISP_BLACK,
     DisplayOp.draw_string DATA_X_FAN LINE8_Y current.fan_status status_color DISP_BLACK]
  else []

/-- Lines 283-290: the sensor error. -/
def update_sensor_error {F : Type} (last current : display_cache_t F) : List DisplayOp :=
  if last.sensor_error != current.sensor_error then
    let error_color := if current.sensor_error == "ERROR" then DISP_RED else DISP_GREEN
    [DisplayOp.fill_rect DATA_X_ERROR LINE9_Y 40 LINE_HEIGHT DISP_BLACK,
     DisplayOp.draw_string DATA_X_ERROR LINE9_Y current.sensor_error error_color DISP_BLACK]
  else []

/-- Lines 216-290: the eight value updates in source order. -/
def value_updates {F : Type} (fl : DisplayFloat F) (last current : display_cache_t F) :
    List DisplayOp :=
  update_ip last current ++ update_pm10 fl last current ++ update_pm25 fl last current
    ++ update_pm100 fl last current ++ update_setpoint fl last current
    ++ update_fan_cmd last current ++ update_fan_status last current
    ++ update_sensor_error last current

/-- The file-scope variables `last_display` and `screen_initialized`. -/
structure DisplayState (F : Type) where
  last_display : display_cache_t F
  screen_initialized : Bool

/-- The function `smart_update_display`, lines 176-297: the file-scope
variables afterwards and the driver calls made, in order. -/
def smart_update_display {F : Type} (fl : DisplayFloat F) (src : Sources F)
    (st : DisplayState F) : DisplayState F × List DisplayOp :=
  let current := read_current fl src
  let ops0 := first_paint st.screen_initialized
  let flag := if !st.screen_initialized then true else st.screen_initialized
  let ops1 := value_updates fl st.last_display current
  ({ last_display := current, screen_initialized := flag }, ops0 ++ ops1)

/-- The file-scope variables when `display_task` enters its loop: the
initialisers of lines 68-69 and the assignments of lines 324-330. -/
def display_task_start {F : Type} (fl : DisplayFloat F) : DisplayState F :=
  { last_display :=
      { ip_addr := ""
        pm10 := fl.lit_m100_0f
        pm25 := fl.lit_m100_0f
        pm100 := fl.lit_m100_0f
        setpoint := fl.lit_m100_0f
        fan_cmd := "INIT"
        fan_status := "INIT"
        sensor_error := "INIT" }
    screen_initialized := false }

/-- The file-scope variables after one invocation per element of `srcs`. -/
def run_display {F : Type} (fl : DisplayFloat F) (st : DisplayState F) :
    List (Sources F) → DisplayState F
  | [] => st
  | src :: rest => run_display fl (smart_update_display fl src st).1 rest

/-- Whether a driver call draws or fills at the position `(x, y)`. -/
def targets (x y : Nat) : DisplayOp → Bool
  | DisplayOp.clear _ => false
  | DisplayOp.draw_string x1 y1 _ _ _ => x1 == x && y1 == y
  | DisplayOp.fill_rect x1 y1 _ _ _ => x1 == x && y1 == y

/-- The driver calls of a list that draw or fill at the position `(x, y)`. -/
def ops_at (x y : Nat) (ops : List DisplayOp) : List DisplayOp :=
  ops.filter (targets x y)

/-- Sources over the rationals with every object valid: PM1.0 = 5, PM10 = 12,
setpoint 25, PM2.5 as given, fan command and status inactive, no sensor
error, address 192.168.1.50. -/
def sample_sources (pm25 : ℚ) : Sources ℚ :=
  { device_ip := "192.168.1.50"
    reg :=
      { av_valid := fun _ => true
        av_present_value := fun i =>
          if i = PM1_0_OBJECT_INSTANCE then 5
          else if i = PM2_5_OBJECT_INSTANCE then pm25
          else if i = PM10_OBJECT_INSTANCE then 12
          else 25
        bo_valid := fun _ => true
        bo_present_value := fun _ => ServerTask.BACNET_BINARY_PV.BINARY_INACTIVE
        bv_valid := fun _ => true
        bv_present_value := fun _ => ServerTask.BACNET_BINARY_PV.BINARY_INACTIVE
        bo_writes := []
        bv_writes := [] }
    bi_valid := fun _ => true
    bi_present_value := fun _ => ServerTask.BACNET_BINARY_PV.BINARY_INACTIVE }

end DisplayTask

namespace PMS5003

/-- The fifteen fields of the struct in declaration order. -/
def fields_list (d : pms5003_data_t) : List Nat :=
  [d.framelen, d.pm10_standard, d.pm25_standard, d.pm100_standard, d.pm10_env, d.pm25_env,
   d.pm100_env, d.particles_03um, d.particles_05um, d.particles_10um, d.particles_25um,
   d.particles_50um, d.particles_100um, d.unused, d.checksum]

/-- The payload `good_payload` with its checksum field changed to 0xFF44. -/
def big_checksum_payload : List Nat := good_payload.set 28 0xFF

end PMS5003

namespace ServerTask

/-- The constant `CHECK_INTERVAL_MS` of `server_task`, line 157. -/
def CHECK_INTERVAL_MS : Nat := 5000

/-- The test of line 179 of `server_task`:
`(current_time - last_check_time) >= CHECK_INTERVAL_MS` on `uint32_t` values. -/
def check_due (current_time last_check_time : Nat) : Bool :=
  decide (CHECK_INTERVAL_MS ≤ sub_u32 current_time last_check_time)

end ServerTask

namespace DisplayTask

/-- What `get_device_ip` finds: no network interface, an interface without
address information, or the four octets of the address. -/
inductive NetifState where
  | no_netif
  | no_ip_info
  | ip (a b c d : Nat)
  deriving DecidableEq, Repr

/-- The function `get_device_ip`, lines 76-89: the string it leaves in `ip_str`. -/
def get_device_ip : NetifState → String
  | NetifState.no_netif => "No WiFi"
  | NetifState.no_ip_info => "No IP"
  | NetifState.ip a b c d =>
    toString a ++ "." ++ toString b ++ "." ++ toString c ++ "." ++ toString d

/-- The driver calls of one invocation per element of `srcs`, in order. -/
def run_display_ops {F : Type} (fl : DisplayFloat F) (st : DisplayState F) :
    List (Sources F) → List DisplayOp
  | [] => []
  | src :: rest =>
    (smart_update_display fl src st).2
      ++ run_display_ops fl (smart_update_display fl src st).1 rest

/-- The binary32 value nearest to a rational, a tie going to the even
significand: 24 significant bits, least exponent -126.  The exponent has no
upper limit here; where binary32 has an infinity the result is a value of the
same sign and of magnitude at least 2^127. -/
def round32 (q : ℚ) : ℚ :=
  let u : ℚ := 2 ^ (max (Int.log 2 |q|) (-126) - 23)
  round_half_even (q / u) * u

/-- Whether a rational is a finite binary32 value. -/
def is_f32 (q : ℚ) : Bool := decide (round32 q = q ∧ |q| < 2 ^ 128)

/-- The `float` operations of the display task in binary32 arithmetic, on
finite values: the literals are the binary32 values nearest to the decimal
ones and the subtraction is rounded to the nearest binary32 value. -/
def f32Display : DisplayFloat ℚ :=
  { lit_0_0 := 0
    lit_0_1f := round32 (1 / 10)
    lit_35_0f := 35
    lit_12_0f := 12
    lit_m100_0f := -100
    sub := fun a b => round32 (a - b)
    fabsf := fun a => |a|
    gt := fun a b => decide (b < a)
    fmt_1f := fmt_tenths }

/-- The sources of three successive ticks in which PM2.5 takes the binary32
values nearest to 10.05, 10.10 and 10.15. -/
def drift_sources : List (Sources ℚ) :=
  [sample_sources (10538189 / 1048576), sample_sources (10590618 / 1048576),
   sample_sources (10643046 / 1048576)]

/-- Sources over the rationals with every object valid and a setpoint of
-100: PM1.0 = 5, PM2.5 = 10, PM10 = 12. -/
def minus100_sources : Sources ℚ :=
  { device_ip := "192.168.1.50"
    reg :=
      { av_valid := fun _ => true
        av_present_value := fun i =>
          if i = PM1_0_OBJECT_INSTANCE then 5
          else if i = PM2_5_OBJECT_INSTANCE then 10
          else if i = PM10_OBJECT_INSTANCE then 12
          else -100
        bo_valid := fun _ => true
        bo_present_value := fun _ => ServerTask.BACNET_BINARY_PV.BINARY_INACTIVE
        bv_valid := fun _ => true
        bv_present_value := fun _ => ServerTask.BACNET_BINARY_PV.BINARY_INACTIVE
        bo_writes := []
        bv_writes := [] }
    bi_valid := fun _ => true
    bi_present_value := fun _ => ServerTask.BACNET_BINARY_PV.BINARY_INACTIVE }

end DisplayTask

namespace DisplayDriver

def DISPLAY_WIDTH : Int := 170
def DISPLAY_HEIGHT : Int := 320

/-- The function `display_color`, lines 59-71. -/
def display_color (color : Nat) : Nat :=
  match color % 65536 with
  | 0xF800 => 0xFFE0
  | 0x07E0 => 0xF81F
  | 0x001F => 0x07FF
  | 0xFFE0 => 0xF800
  | 0xF81F => 0x07E0
  | 0x07FF => 0x001F
  | 0xFFFF => 0x0000
  | 0x0000 => 0xFFFF
  | _ => color

/-- The function `swap_color_bytes`, lines 74-76, result a `uint16_t`. -/
def swap_color_bytes (color : Nat) : Nat := ((color <<< 8) ||| (color >>> 8)) % 65536

/-- The function `color_to_display`, lines 79-81. -/
def color_to_display (color : Nat) : Nat := swap_color_bytes (display_color color)

/-- One call of `esp_lcd_panel_draw_bitmap`: the window and the pixel value
the line buffer is filled with. -/
structure BitmapCall where
  x_start : Int
  y_start : Int
  x_end : Int
  y_end : Int
  pixel : Nat
  deriving DecidableEq, Repr

/-- Line 263: the clamped `x`. -/
def clamp_x (x : Int) : Int := if x < 0 then 0 else x

/-- Line 264: the clamped `y`. -/
def clamp_y (y : Int) : Int := if y < 0 then 0 else y

/-- Line 265: the clamped `width`, for the clamped `x`. -/
def clamp_width (x width : Int) : Int :=
  if clamp_x x + width > DISPLAY_WIDTH then DISPLAY_WIDTH - clamp_x x else width

/-- Line 266: the clamped `height`, for the clamped `y`. -/
def clamp_height (y height : Int) : Int :=
  if clamp_y y + height > DISPLAY_HEIGHT then DISPLAY_HEIGHT - clamp_y y else height

/-- The function `display_fill_rect`, lines 259-287: the calls of
`esp_lcd_panel_draw_bitmap` it makes, in order.  `panel` is whether
`panel_handle` is set, `line_ok` whether `malloc` returned a buffer. -/
def display_fill_rect (panel line_ok : Bool) (x y width height : Int) (color : Nat) :
    List BitmapCall :=
  if !panel then []
  else
    let x1 := clamp_x x
    let y1 := clamp_y y
    let width1 := clamp_width x width
    let height1 := clamp_height y height
    if width1 ≤ 0 ∨ height1 ≤ 0 then []
    else
      let display_color := color_to_display color
      if !line_ok then []
      else
        (List.range height1.toNat).map (fun (row : Nat) =>
          BitmapCall.mk x1 (y1 + Int.ofNat row) (x1 + width1) (y1 + Int.ofNat row + 1)
            display_color)

end DisplayDriver

namespace PMS5003

/-! ## The frame decoder -/

theorem be16_eq (hi lo : Nat) (hhi : hi < 256) (hlo : lo < 256) :
    be16 hi lo = 256 * hi + lo := by
  unfold be16
  have h1 : hi <<< 8 = 2 ^ 8 * hi := by rw [Nat.shiftLeft_eq, Nat.mul_comm]
  have h2 : 2 ^ 8 * hi ||| lo = 2 ^ 8 * hi + lo :=
    (Nat.mul_add_lt_is_or (by norm_num; exact hlo) hi).symm
  rw [h1, h2]
  norm_num
  omega

theorem foldl_mod_sum (f : Nat → Nat) (l : List Nat) (init : Nat) :
    l.foldl (fun sum i => (sum + f i) % 65536) (init % 65536)
      = (init + (l.map f).sum) % 65536 := by
  induction l generalizing init with
  | nil => simp
  | cons a t ih =>
    simp only [List.foldl_cons, List.map_cons, List.sum_cons]
    have h : (init % 65536 + f a) % 65536 = (init + f a) % 65536 := by omega
    rw [h, ih (init + f a)]
    congr 1
    omega

theorem map_range_sum (f : Nat → Nat) (n : Nat) :
    ((List.range n).map f).sum = ∑ j in Finset.range n, f j := by
  induction n with
  | zero => simp
  | succ n ih => simp [List.range_succ, Finset.sum_range_succ, ih]

/-- The loop of lines 105-108 computes the sum of the start bytes and of
`buffer[0..27]` modulo 65536. -/
theorem checksum_loop_eq (buffer : List Nat) :
    checksum_loop buffer
      = (0x42 + 0x4D + ∑ j in Finset.range 28, at_index buffer j) % 65536 := by
  unfold checksum_loop
  have h := foldl_mod_sum (at_index buffer) (List.range 28) (0x42 + 0x4D)
  rw [map_range_sum] at h
  exact h

theorem at_index_lt (buffer : List Nat) (hbytes : ∀ b ∈ buffer, b < 256) (i : Nat) :
    at_index buffer i < 256 := by
  unfold at_index
  by_cases h : i < buffer.length
  · rw [List.getD_eq_getElem _ _ h]
    exact hbytes _ (List.getElem_mem h)
  · rw [List.getD_eq_default _ _ (by omega)]
    norm_num

theorem sum_range_at_index (buffer : List Nat) (n : Nat) (hn : n ≤ buffer.length) :
    ∑ j in Finset.range n, at_index buffer j = (buffer.take n).sum := by
  induction n with
  | zero => simp
  | succ n ih =>
    have hlt : n < buffer.length := by omega
    rw [Finset.sum_range_succ, ih (by omega), List.sum_take_succ buffer n hlt]
    unfold at_index
    rw [List.getD_eq_getElem _ _ hlt]

theorem sum_range_at_index_le (buffer : List Nat) (hbytes : ∀ b ∈ buffer, b < 256) (n : Nat) :
    ∑ j in Finset.range n, at_index buffer j ≤ 255 * n := by
  induction n with
  | zero => simp
  | succ n ih =>
    rw [Finset.sum_range_succ]
    have := at_index_lt buffer hbytes n
    omega

/-- Once the sync loop has ended in state `s1`, the call returns what lines
81-115 make of the 30-byte read. -/
theorem read_data_of_sync {σ : Type} (uart : Uart σ) (fuel : Nat) (s s1 : σ)
    (data : pms5003_data_t) (hsync : sync_loop uart fuel s = some s1) :
    pms5003_read_data uart fuel s data
      = some ((decode_payload (uart s1 30).1 data).1,
              (decode_payload (uart s1 30).1 data).2, (uart s1 30).2) := by
  simp [pms5003_read_data, hsync]

/-- What lines 81-115 do with a full 30-byte read. -/
theorem decode_payload_full (buffer : List Nat) (data : pms5003_data_t)
    (hlen : buffer.length = 30) :
    decode_payload (some buffer) data
      = (if checksum_loop buffer = (parse_fields buffer).checksum
          then esp_err_t.ESP_OK else esp_err_t.ESP_FAIL, parse_fields buffer) := by
  unfold decode_payload
  simp only [rx_length, rx_buffer, hlen]
  by_cases h : checksum_loop buffer = (parse_fields buffer).checksum <;> simp [h]

/-- The stored checksum of a buffer of bytes is `256 * buffer[28] + buffer[29]`. -/
theorem parse_checksum_eq (buffer : List Nat) (hbytes : ∀ b ∈ buffer, b < 256) :
    (parse_fields buffer).checksum = 256 * at_index buffer 28 + at_index buffer 29 :=
  be16_eq _ _ (at_index_lt buffer hbytes 28) (at_index_lt buffer hbytes 29)

/-- For a 30-byte buffer the loop sum is the wraparound sum of the claim. -/
theorem checksum_loop_take (buffer : List Nat) (hlen : buffer.length = 30) :
    checksum_loop buffer = (0x42 + 0x4D + (buffer.take 28).sum) % 65536 := by
  rw [checksum_loop_eq, sum_range_at_index buffer 28 (by omega)]

/-- C1: when the sync loop has found the start bytes and the 30-byte read
returns a buffer whose trailing big-endian field equals
`(0x42 + 0x4D + sum of the first 28 bytes) mod 65536`, `pms5003_read_data`
returns `ESP_OK` and `pm10_standard`, `pm25_standard`, `pm100_standard` are
`256*buffer[2]+buffer[3]`, `256*buffer[4]+buffer[5]`, `256*buffer[6]+buffer[7]`. -/
theorem C1_valid_frame_decodes {σ : Type} (uart : Uart σ) (fuel : Nat) (s s1 s2 : σ)
    (data : pms5003_data_t) (buffer : List Nat)
    (hsync : sync_loop uart fuel s = some s1)
    (hread : uart s1 30 = (some buffer, s2))
    (hlen : buffer.length = 30)
    (hbytes : ∀ b ∈ buffer, b < 256)
    (hsum : 256 * at_index buffer 28 + at_index buffer 29
              = (0x42 + 0x4D + (buffer.take 28).sum) % 65536) :
    ∃ d, pms5003_read_data uart fuel s data = some (esp_err_t.ESP_OK, d, s2)
      ∧ d.pm10_standard = 256 * at_index buffer 2 + at_index buffer 3
      ∧ d.pm25_standard = 256 * at_index buffer 4 + at_index buffer 5
      ∧ d.pm100_standard = 256 * at_index buffer 6 + at_index buffer 7 := by
  refine ⟨parse_fields buffer, ?_, ?_, ?_, ?_⟩
  · rw [read_data_of_sync uart fuel s s1 data hsync, hread]
    simp only [decode_payload_full buffer data hlen]
    rw [if_pos]
    rw [checksum_loop_take buffer hlen, parse_checksum_eq buffer hbytes, hsum]
  · exact be16_eq _ _ (at_index_lt buffer hbytes 2) (at_index_lt buffer hbytes 3)
  · exact be16_eq _ _ (at_index_lt buffer hbytes 4) (at_index_lt buffer hbytes 5)
  · exact be16_eq _ _ (at_index_lt buffer hbytes 6) (at_index_lt buffer hbytes 7)

/-- C1 at a concrete line: the start bytes and `good_payload` decode to
PM1.0 = 5, PM2.5 = 300, PM10 = 12. -/
theorem C1_valid_frame_decodes_witness :
    ∃ d, pms5003_read_data line_read 1 (frame_line good_payload) data_zero
          = some (esp_err_t.ESP_OK, d, [])
      ∧ d.pm10_standard = 5 ∧ d.pm25_standard = 300 ∧ d.pm100_standard = 12 :=
  C1_valid_frame_decodes line_read 1 (frame_line good_payload) (good_payload.map some) []
    data_zero good_payload rfl rfl rfl (by decide) (by decide)

/-- C2: once the sync loop has ended and the 30-byte read is full, the return
code is `ESP_OK` exactly when the wraparound sum of the two start bytes and
the first 28 payload bytes equals the trailing big-endian field, and it is
`ESP_FAIL` on every mismatch. -/
theorem C2_ok_iff_checksum {σ : Type} (uart : Uart σ) (fuel : Nat) (s s1 s2 : σ)
    (data : pms5003_data_t) (buffer : List Nat)
    (hsync : sync_loop uart fuel s = some s1)
    (hread : uart s1 30 = (some buffer, s2))
    (hlen : buffer.length = 30)
    (hbytes : ∀ b ∈ buffer, b < 256) :
    ∃ e d, pms5003_read_data uart fuel s data = some (e, d, s2)
      ∧ (e = esp_err_t.ESP_OK ↔
          (0x42 + 0x4D + (buffer.take 28).sum) % 65536
            = 256 * at_index buffer 28 + at_index buffer 29)
      ∧ ((0x42 + 0x4D + (buffer.take 28).sum) % 65536
            ≠ 256 * at_index buffer 28 + at_index buffer 29 → e = esp_err_t.ESP_FAIL) := by
  refine ⟨(decode_payload (some buffer) data).1, (decode_payload (some buffer) data).2,
    ?_, ?_, ?_⟩
  · rw [read_data_of_sync uart fuel s s1 data hsync, hread]
  · simp only [decode_payload_full buffer data hlen, checksum_loop_take buffer hlen,
      parse_checksum_eq buffer hbytes]
    by_cases h : (0x42 + 0x4D + (buffer.take 28).sum) % 65536
        = 256 * at_index buffer 28 + at_index buffer 29 <;> simp [h]
  · intro h
    simp only [decode_payload_full buffer data hlen, checksum_loop_take buffer hlen,
      parse_checksum_eq buffer hbytes]
    simp [h]

/-- C2 at a concrete line: `good_payload` with its last byte changed from
0x44 to 0x45 has a full read and a mismatching checksum, and the call
returns `ESP_FAIL`. -/
theorem C2_ok_iff_checksum_witness :
    ∃ e d, pms5003_read_data line_read 1
            (frame_line (good_payload.set 29 0x45)) data_zero = some (e, d, [])
      ∧ (e = esp_err_t.ESP_OK ↔
          (0x42 + 0x4D + ((good_payload.set 29 0x45).take 28).sum) % 65536
            = 256 * at_index (good_payload.set 29 0x45) 28
                + at_index (good_payload.set 29 0x45) 29)
      ∧ ((0x42 + 0x4D + ((good_payload.set 29 0x45).take 28).sum) % 65536
            ≠ 256 * at_index (good_payload.set 29 0x45) 28
                + at_index (good_payload.set 29 0x45) 29 → e = esp_err_t.ESP_FAIL) :=
  C2_ok_iff_checksum line_read 1 (frame_line (good_payload.set 29 0x45))
    ((good_payload.set 29 0x45).map some) [] data_zero (good_payload.set 29 0x45)
    rfl rfl rfl (by decide)

theorem at_index_set (buffer : List Nat) (i j x : Nat) (hi : i < buffer.length) :
    at_index (buffer.set i x) j = if j = i then x else at_index buffer j := by
  unfold at_index
  simp only [List.getD_eq_getElem?_getD, List.getElem?_set]
  by_cases h : i = j
  · subst h
    simp [hi]
  · have h2 : ¬ j = i := fun e => h e.symm
    simp [h, h2]

theorem sum_range_change (f g : Nat → Nat) (n i : Nat) (hi : i < n)
    (hg : ∀ j, j ≠ i → g j = f j) :
    ∑ j in Finset.range n, g j + f i = ∑ j in Finset.range n, f j + g i := by
  have hmem : i ∈ Finset.range n := Finset.mem_range.2 hi
  rw [← Finset.add_sum_erase (Finset.range n) g hmem,
    ← Finset.add_sum_erase (Finset.range n) f hmem]
  have hrest : ∑ j in (Finset.range n).erase i, g j = ∑ j in (Finset.range n).erase i, f j :=
    Finset.sum_congr rfl (fun j hj => hg j (Finset.ne_of_mem_erase hj))
  omega

theorem flipped_byte (x k : Nat) (hx : x < 256) (hk : k < 8) :
    x ^^^ (1 <<< k) < 256 ∧ x ^^^ (1 <<< k) ≠ x := by
  have hpow : 1 <<< k < 2 ^ 8 := by
    rw [Nat.shiftLeft_eq, Nat.one_mul]
    exact Nat.pow_lt_pow_right (by norm_num) hk
  constructor
  · exact Nat.xor_lt_two_pow (by norm_num; exact hx) hpow
  · intro h
    have h0 : x ^^^ (1 <<< k) = x ^^^ 0 := by rw [h, Nat.xor_zero]
    have h1 : 1 <<< k = 0 := Nat.xor_right_inj.1 h0
    rw [Nat.shiftLeft_eq, Nat.one_mul] at h1
    exact absurd h1 (by positivity)

/-- A buffer that passes the checksum test fails it after one bit of one of
its 30 bytes is inverted. -/
theorem flip_bit_breaks_checksum (buffer : List Nat) (i k : Nat)
    (hlen : buffer.length = 30) (hbytes : ∀ b ∈ buffer, b < 256)
    (hi : i < 30) (hk : k < 8)
    (hok : checksum_loop buffer = (parse_fields buffer).checksum) :
    checksum_loop (flip_bit buffer i k) ≠ (parse_fields (flip_bit buffer i k)).checksum := by
  have hx := flipped_byte (at_index buffer i) k (at_index_lt buffer hbytes i) hk
  have hbytes2 : ∀ b ∈ flip_bit buffer i k, b < 256 := by
    intro b hb
    rcases List.mem_or_eq_of_mem_set hb with h | h
    · exact hbytes b h
    · rw [h]; exact hx.1
  have hget : ∀ j, at_index (flip_bit buffer i k) j
      = if j = i then at_index buffer i ^^^ (1 <<< k) else at_index buffer j :=
    fun j => at_index_set buffer i j _ (by omega)
  rw [checksum_loop_eq, parse_checksum_eq _ hbytes2]
  rw [checksum_loop_eq, parse_checksum_eq _ hbytes] at hok
  have hb1 := sum_range_at_index_le buffer hbytes 28
  have hb2 := sum_range_at_index_le (flip_bit buffer i k) hbytes2 28
  have h28 := at_index_lt buffer hbytes 28
  have h29 := at_index_lt buffer hbytes 29
  by_cases hlt : i < 28
  · have hsum := sum_range_change (at_index buffer) (at_index (flip_bit buffer i k)) 28 i hlt
      (fun j hj => by rw [hget j, if_neg hj])
    have hgi := hget i
    rw [if_pos rfl] at hgi
    have e28 := hget 28
    have e29 := hget 29
    rw [if_neg (by omega)] at e28 e29
    rw [e28, e29]
    have hne := hx.2
    omega
  · have hsum : ∑ j in Finset.range 28, at_index (flip_bit buffer i k) j
        = ∑ j in Finset.range 28, at_index buffer j :=
      Finset.sum_congr rfl (fun j hj => by
        have := Finset.mem_range.1 hj
        rw [hget j, if_neg (by omega)])
    rw [hsum]
    have hne := hx.2
    have hlo := hx.1
    have e28 := hget 28
    have e29 := hget 29
    rcases (by omega : i = 28 ∨ i = 29) with h | h
    · subst h
      rw [if_pos rfl] at e28
      rw [if_neg (by omega)] at e29
      rw [e28, e29]
      omega
    · subst h
      rw [if_pos rfl] at e29
      rw [if_neg (by omega)] at e28
      rw [e28, e29]
      omega

/-- C3: if `pms5003_read_data` accepts a frame with payload `buffer`, then a
call whose 30-byte read returns `buffer` with a single bit of any one of its
30 bytes inverted returns `ESP_FAIL`. -/
theorem C3_single_bit_flip_rejected {σ τ : Type} (uart : Uart σ) (fuel : Nat) (s s1 s2 : σ)
    (data : pms5003_data_t) (buffer : List Nat)
    (hsync : sync_loop uart fuel s = some s1)
    (hread : uart s1 30 = (some buffer, s2))
    (hbytes : ∀ b ∈ buffer, b < 256)
    (hok : ∃ d, pms5003_read_data uart fuel s data = some (esp_err_t.ESP_OK, d, s2))
    (uart2 : Uart τ) (fuel2 : Nat) (t t1 t2 : τ) (data2 : pms5003_data_t) (i k : Nat)
    (hi : i < 30) (hk : k < 8)
    (hsync2 : sync_loop uart2 fuel2 t = some t1)
    (hread2 : uart2 t1 30 = (some (flip_bit buffer i k), t2)) :
    ∃ d, pms5003_read_data uart2 fuel2 t data2 = some (esp_err_t.ESP_FAIL, d, t2) := by
  obtain ⟨d, hd⟩ := hok
  rw [read_data_of_sync uart fuel s s1 data hsync, hread] at hd
  have hcode : (decode_payload (some buffer) data).1 = esp_err_t.ESP_OK := by
    injection hd with hd
    exact congrArg Prod.fst hd
  have hlen : buffer.length = 30 := by
    by_contra hne
    have hne2 : ((buffer.length : Int) != 30) = true := by
      simp only [bne_iff_ne, ne_eq]
      intro h
      exact hne (by exact_mod_cast h)
    simp [decode_payload, rx_length, hne2] at hcode
  rw [decode_payload_full buffer data hlen] at hcode
  have hsum : checksum_loop buffer = (parse_fields buffer).checksum := by
    by_contra hne
    simp [hne] at hcode
  have hbad := flip_bit_breaks_checksum buffer i k hlen hbytes hi hk hsum
  refine ⟨parse_fields (flip_bit buffer i k), ?_⟩
  rw [read_data_of_sync uart2 fuel2 t t1 data2 hsync2, hread2]
  rw [decode_payload_full _ data2 (by simp [flip_bit, hlen])]
  simp [hbad]

/-- C3 at a concrete line: `good_payload` is accepted, and with bit 3 of its
byte 5 inverted it is rejected. -/
theorem C3_single_bit_flip_rejected_witness :
    ∃ d, pms5003_read_data line_read 1 (frame_line (flip_bit good_payload 5 3)) data_zero
          = some (esp_err_t.ESP_FAIL, d, []) :=
  C3_single_bit_flip_rejected line_read 1 (frame_line good_payload) (good_payload.map some) []
    data_zero good_payload rfl rfl (by decide) ⟨parse_fields good_payload, by decide⟩
    line_read 1 (frame_line (flip_bit good_payload 5 3))
    ((flip_bit good_payload 5 3).map some) [] data_zero 5 3 (by decide) (by decide) rfl rfl

/-- On a line with nothing left to arrive the sync loop never ends. -/
theorem sync_loop_silent (fuel : Nat) : sync_loop line_read fuel [] = none := by
  induction fuel with
  | zero => rfl
  | succ n ih =>
    show (if is_start (line_read [] 2).1 then some (line_read [] 2).2
      else sync_loop line_read n (line_read [] 2).2) = none
    have h1 : is_start (line_read [] 2).1 = false := by decide
    have h2 : (line_read [] 2).2 = [] := rfl
    rw [h1, h2]
    simpa using ih

/-- C4 (the code at the failing input): with one junk byte in front of a valid
frame the sync loop reads the pairs at odd alignment, never sees the start
bytes as one read, and the call does not return for any number of reads. -/
theorem C4_odd_offset_frame_lost :
    ∀ fuel, pms5003_read_data line_read fuel junk_then_frame data_zero = none := by
  intro fuel
  have hs : sync_loop line_read fuel junk_then_frame = none := by
    by_cases h : fuel < 17
    · interval_cases fuel <;> rfl
    · obtain ⟨k, rfl⟩ : ∃ k, fuel = k + 17 := ⟨fuel - 17, by omega⟩
      have hstep : sync_loop line_read (k + 17) junk_then_frame = sync_loop line_read k [] := rfl
      rw [hstep, sync_loop_silent]
  simp [pms5003_read_data, hs]

/-- When the first `k` two-byte reads are not the start bytes and the next one
is, the sync loop is still running after `k` reads and ends with read `k + 1`. -/
theorem sync_loop_after_skips {σ : Type} (uart : Uart σ) (k : Nat) (s : σ)
    (hquiet : ∀ j, j < k → is_start (uart (skip_reads uart j s) 2).1 = false)
    (hstart : is_start (uart (skip_reads uart k s) 2).1 = true) :
    sync_loop uart k s = none
      ∧ sync_loop uart (k + 1) s = some (uart (skip_reads uart k s) 2).2 := by
  induction k generalizing s with
  | zero =>
    refine ⟨rfl, ?_⟩
    have h : is_start (uart s 2).1 = true := hstart
    simp [sync_loop, h, skip_reads]
  | succ n ih =>
    have h0 : is_start (uart s 2).1 = false := hquiet 0 (by omega)
    have hq : ∀ j, j < n → is_start (uart (skip_reads uart j (uart s 2).2) 2).1 = false :=
      fun j hj => hquiet (j + 1) (by omega)
    have hi := ih (uart s 2).2 hq hstart
    constructor
    · have e : sync_loop uart (n + 1) s = sync_loop uart n (uart s 2).2 := by
        simp [sync_loop, h0]
      rw [e, hi.1]
    · have e : sync_loop uart (n + 1 + 1) s = sync_loop uart (n + 1) (uart s 2).2 := by
        simp [sync_loop, h0]
      rw [e, hi.2]
      rfl

/-- C5: a call fails because its payload read is short or because the 30
bytes it read do not match their checksum; after it the channel stays silent
for `k` two-byte reads (none of them the start bytes) and then delivers the
start bytes and a payload with a matching checksum.  The first call returns
`ESP_FAIL`; the next call is still scanning after `k` reads and, with read
`k + 1`, returns `ESP_OK` with that frame's PM1.0, PM2.5 and PM10 values. -/
theorem C5_valid_frame_after_failure {σ : Type} (uart : Uart σ) (fuel k : Nat)
    (s s1 s2 s3 s4 : σ) (data : pms5003_data_t) (r : RxBytes) (buffer : List Nat)
    (hsync : sync_loop uart fuel s = some s1)
    (hread : uart s1 30 = (r, s2))
    (hbad : rx_length r < 30
      ∨ ∃ bad, r = some bad ∧ bad.length = 30 ∧ (∀ b ∈ bad, b < 256)
          ∧ 256 * at_index bad 28 + at_index bad 29
              ≠ (0x42 + 0x4D + (bad.take 28).sum) % 65536)
    (hquiet : ∀ j, j < k → is_start (uart (skip_reads uart j s2) 2).1 = false)
    (hstart : uart (skip_reads uart k s2) 2 = (some [0x42, 0x4D], s3))
    (hread2 : uart s3 30 = (some buffer, s4))
    (hlen : buffer.length = 30)
    (hbytes : ∀ b ∈ buffer, b < 256)
    (hsum : 256 * at_index buffer 28 + at_index buffer 29
              = (0x42 + 0x4D + (buffer.take 28).sum) % 65536) :
    ∃ d, pms5003_read_data uart fuel s data = some (esp_err_t.ESP_FAIL, d, s2)
      ∧ pms5003_read_data uart k s2 d = none
      ∧ ∃ d2, pms5003_read_data uart (k + 1) s2 d = some (esp_err_t.ESP_OK, d2, s4)
        ∧ d2.pm10_standard = 256 * at_index buffer 2 + at_index buffer 3
        ∧ d2.pm25_standard = 256 * at_index buffer 4 + at_index buffer 5
        ∧ d2.pm100_standard = 256 * at_index buffer 6 + at_index buffer 7 := by
  have hfirst : ∃ d, pms5003_read_data uart fuel s data
      = some (esp_err_t.ESP_FAIL, d, s2) := by
    rw [read_data_of_sync uart fuel s s1 data hsync, hread]
    rcases hbad with hshort | ⟨bad, rfl, hblen, hbbytes, hbsum⟩
    · refine ⟨data, ?_⟩
      have hne : (rx_length r != 30) = true := by
        simp only [bne_iff_ne, ne_eq]
        omega
      simp [decode_payload, hne]
    · refine ⟨parse_fields bad, ?_⟩
      rw [decode_payload_full bad data hblen]
      have hne : checksum_loop bad ≠ (parse_fields bad).checksum := by
        rw [checksum_loop_take bad hblen, parse_checksum_eq bad hbbytes]
        exact fun e => hbsum e.symm
      simp [hne]
  obtain ⟨d, hd⟩ := hfirst
  have hst : is_start (uart (skip_reads uart k s2) 2).1 = true := by
    rw [hstart]
    rfl
  have hloop := sync_loop_after_skips uart k s2 hquiet hst
  have hs3 : (uart (skip_reads uart k s2) 2).2 = s3 := by rw [hstart]
  rw [hs3] at hloop
  refine ⟨d, hd, ?_, parse_fields buffer, ?_, ?_, ?_, ?_⟩
  · simp [pms5003_read_data, hloop.1]
  · rw [read_data_of_sync uart (k + 1) s2 s3 d hloop.2, hread2]
    simp only [decode_payload_full buffer d hlen]
    rw [if_pos]
    rw [checksum_loop_take buffer hlen, parse_checksum_eq buffer hbytes, hsum]
  · exact be16_eq _ _ (at_index_lt buffer hbytes 2) (at_index_lt buffer hbytes 3)
  · exact be16_eq _ _ (at_index_lt buffer hbytes 4) (at_index_lt buffer hbytes 5)
  · exact be16_eq _ _ (at_index_lt buffer hbytes 6) (at_index_lt buffer hbytes 7)

/-- C5 at a concrete line: the payload of the first frame is cut short by a
silence and a second silence follows; the first call fails, the next call is
still scanning after one read and decodes the valid frame with its second
read. -/
theorem C5_valid_frame_after_failure_witness :
    ∃ d, pms5003_read_data line_read 1 short_silence_frame data_zero
          = some (esp_err_t.ESP_FAIL, d, none :: frame_line good_payload)
      ∧ pms5003_read_data line_read 1 (none :: frame_line good_payload) d = none
      ∧ ∃ d2, pms5003_read_data line_read 2 (none :: frame_line good_payload) d
            = some (esp_err_t.ESP_OK, d2, [])
        ∧ d2.pm10_standard = 5 ∧ d2.pm25_standard = 300 ∧ d2.pm100_standard = 12 :=
  C5_valid_frame_after_failure line_read 1 1 short_silence_frame
    ([some 0x00, some 0x1C, some 0x00, none, none] ++ frame_line good_payload)
    (none :: frame_line good_payload) (good_payload.map some) [] data_zero
    (some [0x00, 0x1C, 0x00]) good_payload (by decide) (by decide) (Or.inl (by decide))
    (fun j hj => by
      have hj0 : j = 0 := by omega
      subst hj0
      decide)
    (by decide) (by decide) rfl (by decide) (by decide)

/-- C6: once the sync loop has ended, a payload read that returns fewer than
30 bytes makes the call return `ESP_FAIL` with the caller's struct unchanged. -/
theorem C6_short_read_fails_untouched {σ : Type} (uart : Uart σ) (fuel : Nat) (s s1 s2 : σ)
    (data : pms5003_data_t) (r : RxBytes)
    (hsync : sync_loop uart fuel s = some s1)
    (hread : uart s1 30 = (r, s2))
    (hshort : rx_length r < 30) :
    pms5003_read_data uart fuel s data = some (esp_err_t.ESP_FAIL, data, s2) := by
  rw [read_data_of_sync uart fuel s s1 data hsync, hread]
  have hne : (rx_length r != 30) = true := by
    simp only [bne_iff_ne, ne_eq]
    omega
  simp [decode_payload, hne]

/-- C6 at a concrete line: three payload bytes arrive before the timeout, the
call fails and the struct keeps its fields. -/
theorem C6_short_read_fails_untouched_witness :
    pms5003_read_data line_read 1 short_then_frame (parse_fields good_payload)
      = some (esp_err_t.ESP_FAIL, parse_fields good_payload, frame_line good_payload) :=
  C6_short_read_fails_untouched line_read 1 short_then_frame
    ([some 0x00, some 0x1C, some 0x00, none] ++ frame_line good_payload)
    (frame_line good_payload) (parse_fields good_payload) (some [0x00, 0x1C, 0x00])
    (by decide) (by decide) (by decide)

theorem sync_loop_isSome_iff {σ : Type} (uart : Uart σ) (fuel : Nat) (s : σ) :
    (sync_loop uart fuel s).isSome = true
      ↔ ∃ k, k < fuel ∧ is_start (uart (skip_reads uart k s) 2).1 = true := by
  induction fuel generalizing s with
  | zero => simp [sync_loop]
  | succ n ih =>
    by_cases h : is_start (uart s 2).1 = true
    · have hl : (sync_loop uart (n + 1) s).isSome = true := by simp [sync_loop, h]
      simp only [hl, true_iff]
      exact ⟨0, by omega, h⟩
    · have hl : sync_loop uart (n + 1) s = sync_loop uart n (uart s 2).2 := by
        simp [sync_loop, h]
      rw [hl, ih]
      constructor
      · rintro ⟨k, hk, hs⟩
        exact ⟨k + 1, by omega, hs⟩
      · rintro ⟨k, hk, hs⟩
        cases k with
        | zero => exact absurd hs h
        | succ k => exact ⟨k, by omega, hs⟩

/-- C7 (counterexample): on a line on which every read times out with 0 bytes
the call does not return, whatever the number of reads allowed. -/
theorem C7_silent_line_never_returns :
    ¬ ∃ fuel, (pms5003_read_data line_read fuel [] data_zero).isSome = true := by
  rintro ⟨fuel, h⟩
  simp [pms5003_read_data, sync_loop_silent] at h

/-- C7 (amended): a call returns within `fuel` reads of the sync loop (and one
payload read) exactly when one of the first `fuel` two-byte reads returns the
start bytes 0x42 0x4D; there is no timeout exit from the sync loop. -/
theorem C7_returns_iff_start_bytes_read {σ : Type} (uart : Uart σ) (fuel : Nat) (s : σ)
    (data : pms5003_data_t) :
    (pms5003_read_data uart fuel s data).isSome = true
      ↔ ∃ k, k < fuel ∧ is_start (uart (skip_reads uart k s) 2).1 = true := by
  rw [← sync_loop_isSome_iff]
  unfold pms5003_read_data
  cases sync_loop uart fuel s <;> simp

end PMS5003

namespace ServerTask

/-! ## The control loop -/

theorem set_error_state_bo {F : Type} (e : Bool) (reg : Registry F) :
    (set_error_state e reg).bo_present_value = reg.bo_present_value
      ∧ (set_error_state e reg).bo_writes = reg.bo_writes
      ∧ (set_error_state e reg).bo_valid = reg.bo_valid
      ∧ (set_error_state e reg).av_valid = reg.av_valid
      ∧ (set_error_state e reg).av_present_value = reg.av_present_value := by
  simp only [set_error_state, Binary_Value_Present_Value_Set]
  split_ifs <;> exact ⟨rfl, rfl, rfl, rfl, rfl⟩

theorem control_fan_av {F : Type} (ops : FloatOps F) (p q : F) (reg : Registry F) :
    (control_fan ops p q reg).bo_valid = reg.bo_valid
      ∧ (control_fan ops p q reg).av_valid = reg.av_valid
      ∧ (control_fan ops p q reg).av_present_value = reg.av_present_value := by
  simp only [control_fan, Binary_Output_Present_Value_Set]
  split_ifs <;> exact ⟨rfl, rfl, rfl⟩

/-- With a valid fan object the fan block leaves the present value at the
wanted state. -/
theorem control_fan_present_value {F : Type} (ops : FloatOps F) (reg : Registry F)
    (hvalid : reg.bo_valid FAN_COMMAND_OBJECT_INSTANCE = true) :
    (control_fan ops (read_pm25 ops reg) (read_setpoint ops reg) reg).bo_present_value
        FAN_COMMAND_OBJECT_INSTANCE = wanted_fan_state ops reg := by
  unfold control_fan wanted_fan_state Binary_Output_Present_Value_Set
  rw [if_pos hvalid]
  by_cases hgt : ops.gt (read_pm25 ops reg) (ops.add (read_setpoint ops reg) ops.lit_0_1f) = true
  · simp only [hgt, if_true]
    by_cases hc : reg.bo_present_value FAN_COMMAND_OBJECT_INSTANCE
        = BACNET_BINARY_PV.BINARY_ACTIVE
    · simp [hc]
    · simp [hc]
  · simp only [hgt]
    by_cases hc : reg.bo_present_value FAN_COMMAND_OBJECT_INSTANCE
        = BACNET_BINARY_PV.BINARY_INACTIVE
    · simp [hc]
    · simp [hc]

/-- The calls of the fan setter the fan block makes. -/
theorem control_fan_writes {F : Type} (ops : FloatOps F) (reg : Registry F) :
    (control_fan ops (read_pm25 ops reg) (read_setpoint ops reg) reg).bo_writes
      = if reg.bo_valid FAN_COMMAND_OBJECT_INSTANCE = true
            ∧ reg.bo_present_value FAN_COMMAND_OBJECT_INSTANCE ≠ wanted_fan_state ops reg
        then reg.bo_writes ++ [{ instance_id := FAN_COMMAND_OBJECT_INSTANCE,
                                 value := wanted_fan_state ops reg, priority := 16 }]
        else reg.bo_writes := by
  unfold control_fan wanted_fan_state Binary_Output_Present_Value_Set
  by_cases hvalid : reg.bo_valid FAN_COMMAND_OBJECT_INSTANCE = true
  · rw [if_pos hvalid]
    by_cases hgt : ops.gt (read_pm25 ops reg) (ops.add (read_setpoint ops reg) ops.lit_0_1f)
        = true
    · simp only [hgt, if_true]
      by_cases hc : reg.bo_present_value FAN_COMMAND_OBJECT_INSTANCE
          = BACNET_BINARY_PV.BINARY_ACTIVE
      · simp [hc]
      · simp [hc, hvalid]
    · simp only [hgt]
      by_cases hc : reg.bo_present_value FAN_COMMAND_OBJECT_INSTANCE
          = BACNET_BINARY_PV.BINARY_INACTIVE
      · simp [hc]
      · simp [hc, hvalid]
  · simp [hvalid]

/-- The object store after a tick, as far as the fan block and the analog
values go. -/
theorem tick_reg_facts {F : Type} (ops : FloatOps F) (timer1 timer2 : Nat) (mon : Monitor)
    (reg : Registry F) :
    (check_sensor_and_control_fan ops timer1 timer2 mon reg).reg.bo_present_value
        = (control_fan ops (read_pm25 ops reg) (read_setpoint ops reg) reg).bo_present_value
      ∧ (check_sensor_and_control_fan ops timer1 timer2 mon reg).reg.bo_writes
        = (control_fan ops (read_pm25 ops reg) (read_setpoint ops reg) reg).bo_writes
      ∧ (check_sensor_and_control_fan ops timer1 timer2 mon reg).reg.bo_valid = reg.bo_valid
      ∧ (check_sensor_and_control_fan ops timer1 timer2 mon reg).reg.av_valid = reg.av_valid
      ∧ (check_sensor_and_control_fan ops timer1 timer2 mon reg).reg.av_present_value
        = reg.av_present_value := by
  simp only [check_sensor_and_control_fan]
  have h1 := set_error_state_bo (freshness_check (update_monitor reg timer1 mon) timer2)
    (control_fan ops (read_pm25 ops reg) (read_setpoint ops reg) reg)
  have h2 := control_fan_av ops (read_pm25 ops reg) (read_setpoint ops reg) reg
  refine ⟨h1.1, h1.2.1, ?_, ?_, ?_⟩
  · rw [h1.2.2.1, h2.1]
  · rw [h1.2.2.2.1, h2.2.1]
  · rw [h1.2.2.2.2, h2.2.2]

/-- C9: `check_sensor_and_control_fan` calls `Binary_Output_Present_Value_Set`
(once, with the wanted state at priority 16) exactly when the fan object is
valid and the state just read differs from the wanted state, and otherwise
makes no call; a second tick on the store the first one left, with PM2.5 and
setpoint unchanged, makes no call. -/
theorem C9_fan_write_iff_state_differs {F : Type} (ops : FloatOps F)
    (timer1 timer2 timer3 timer4 : Nat) (mon : Monitor) (reg : Registry F) :
    (check_sensor_and_control_fan ops timer1 timer2 mon reg).reg.bo_writes
        = (if reg.bo_valid FAN_COMMAND_OBJECT_INSTANCE = true
              ∧ reg.bo_present_value FAN_COMMAND_OBJECT_INSTANCE ≠ wanted_fan_state ops reg
            then reg.bo_writes ++ [{ instance_id := FAN_COMMAND_OBJECT_INSTANCE,
                                     value := wanted_fan_state ops reg, priority := 16 }]
            else reg.bo_writes)
    ∧ (check_sensor_and_control_fan ops timer3 timer4
          (check_sensor_and_control_fan ops timer1 timer2 mon reg).mon
          (check_sensor_and_control_fan ops timer1 timer2 mon reg).reg).reg.bo_writes
        = (check_sensor_and_control_fan ops timer1 timer2 mon reg).reg.bo_writes := by
  have hf := tick_reg_facts ops timer1 timer2 mon reg
  constructor
  · rw [hf.2.1]
    exact control_fan_writes ops reg
  · have hf2 := tick_reg_facts ops timer3 timer4
      (check_sensor_and_control_fan ops timer1 timer2 mon reg).mon
      (check_sensor_and_control_fan ops timer1 timer2 mon reg).reg
    rw [hf2.2.1, control_fan_writes]
    have hw : wanted_fan_state ops (check_sensor_and_control_fan ops timer1 timer2 mon reg).reg
        = wanted_fan_state ops reg := by
      simp only [wanted_fan_state, read_pm25, read_setpoint, hf.2.2.2.1, hf.2.2.2.2]
    rw [if_neg]
    rintro ⟨hv, hne⟩
    rw [hf.2.2.1] at hv
    apply hne
    rw [hw, hf.1]
    exact control_fan_present_value ops reg hv

/-- C10 (the code at the failing input): monitoring starts at time 0, no
reading is ever published, the PM2.5 object is valid; the tick at 31 s
refreshes `last_sensor_update_time` itself and computes `sensor_error = false`,
and so does every tick on a store whose PM2.5 object is valid. -/
theorem C10_fault_clear_while_object_valid :
    (check_sensor_and_control_fan ratOps 31000000 31000000 (init_sensor_monitoring 0)
        (sample_registry 0 25 BACNET_BINARY_PV.BINARY_INACTIVE)).sensor_error = false
    ∧ ∀ (timer : Nat) (mon : Monitor) (pm25 setpoint : ℚ) (fan : BACNET_BINARY_PV),
        (check_sensor_and_control_fan ratOps timer timer mon
          (sample_registry pm25 setpoint fan)).sensor_error = false := by
  have hgen : ∀ (timer : Nat) (mon : Monitor) (pm25 setpoint : ℚ) (fan : BACNET_BINARY_PV),
      (check_sensor_and_control_fan ratOps timer timer mon
        (sample_registry pm25 setpoint fan)).sensor_error = false := by
    intro timer mon pm25 setpoint fan
    have hz : sub_u32 (millis timer) (millis timer) = 0 := by
      unfold sub_u32 millis
      omega
    simp [check_sensor_and_control_fan, freshness_check, update_monitor, sample_registry, hz,
      SENSOR_TIMEOUT_MS]
  exact ⟨hgen _ _ _ _ _, hgen⟩

end ServerTask

namespace ServerTask

/-! ## The control loop: fault flag and invalid channels -/

theorem control_fan_bv {F : Type} (ops : FloatOps F) (p q : F) (reg : Registry F) :
    (control_fan ops p q reg).bv_valid = reg.bv_valid
      ∧ (control_fan ops p q reg).bv_present_value = reg.bv_present_value
      ∧ (control_fan ops p q reg).bv_writes = reg.bv_writes := by
  simp only [control_fan, Binary_Output_Present_Value_Set]
  split_ifs <;> exact ⟨rfl, rfl, rfl⟩

/-- What the sensor-error block does to the flag and to the record of setter calls. -/
theorem set_error_state_bv {F : Type} (e : Bool) (reg : Registry F) :
    (set_error_state e reg).bv_writes
        = (if reg.bv_valid SENSOR_ERROR_OBJECT_INSTANCE = true
              ∧ reg.bv_present_value SENSOR_ERROR_OBJECT_INSTANCE
                  ≠ (if e then BACNET_BINARY_PV.BINARY_ACTIVE
                      else BACNET_BINARY_PV.BINARY_INACTIVE)
            then reg.bv_writes ++ [BvWrite.mk SENSOR_ERROR_OBJECT_INSTANCE
                (if e then BACNET_BINARY_PV.BINARY_ACTIVE
                  else BACNET_BINARY_PV.BINARY_INACTIVE)]
            else reg.bv_writes)
      ∧ (set_error_state e reg).bv_present_value
        = (if reg.bv_valid SENSOR_ERROR_OBJECT_INSTANCE = true
              ∧ reg.bv_present_value SENSOR_ERROR_OBJECT_INSTANCE
                  ≠ (if e then BACNET_BINARY_PV.BINARY_ACTIVE
                      else BACNET_BINARY_PV.BINARY_INACTIVE)
            then fun i => if i = SENSOR_ERROR_OBJECT_INSTANCE
                then (if e then BACNET_BINARY_PV.BINARY_ACTIVE
                  else BACNET_BINARY_PV.BINARY_INACTIVE)
                else reg.bv_present_value i
            else reg.bv_present_value) := by
  simp only [set_error_state, Binary_Value_Present_Value_Set]
  by_cases hv : reg.bv_valid SENSOR_ERROR_OBJECT_INSTANCE = true
  · by_cases hc : reg.bv_present_value SENSOR_ERROR_OBJECT_INSTANCE
        = (if e then BACNET_BINARY_PV.BINARY_ACTIVE else BACNET_BINARY_PV.BINARY_INACTIVE)
    · simp [hv, hc]
    · simp [hv, hc]
  · simp [hv]

/-- C11: `check_sensor_and_control_fan` calls `Binary_Value_Present_Value_Set`
(once, with the newly computed fault state) exactly when the sensor-error
object is valid and its present value differs from that state; otherwise it
makes no call and the flag keeps its value. -/
theorem C11_error_write_iff_state_differs {F : Type} (ops : FloatOps F)
    (timer1 timer2 : Nat) (mon : Monitor) (reg : Registry F) :
    (check_sensor_and_control_fan ops timer1 timer2 mon reg).reg.bv_writes
        = (if reg.bv_valid SENSOR_ERROR_OBJECT_INSTANCE = true
              ∧ reg.bv_present_value SENSOR_ERROR_OBJECT_INSTANCE
                  ≠ (if (check_sensor_and_control_fan ops timer1 timer2 mon reg).sensor_error
                      then BACNET_BINARY_PV.BINARY_ACTIVE
                      else BACNET_BINARY_PV.BINARY_INACTIVE)
            then reg.bv_writes ++ [BvWrite.mk SENSOR_ERROR_OBJECT_INSTANCE
                (if (check_sensor_and_control_fan ops timer1 timer2 mon reg).sensor_error
                  then BACNET_BINARY_PV.BINARY_ACTIVE
                  else BACNET_BINARY_PV.BINARY_INACTIVE)]
            else reg.bv_writes)
      ∧ (check_sensor_and_control_fan ops timer1 timer2 mon reg).reg.bv_present_value
        = (if reg.bv_valid SENSOR_ERROR_OBJECT_INSTANCE = true
              ∧ reg.bv_present_value SENSOR_ERROR_OBJECT_INSTANCE
                  ≠ (if (check_sensor_and_control_fan ops timer1 timer2 mon reg).sensor_error
                      then BACNET_BINARY_PV.BINARY_ACTIVE
                      else BACNET_BINARY_PV.BINARY_INACTIVE)
            then fun i => if i = SENSOR_ERROR_OBJECT_INSTANCE
                then (if (check_sensor_and_control_fan ops timer1 timer2 mon reg).sensor_error
                  then BACNET_BINARY_PV.BINARY_ACTIVE
                  else BACNET_BINARY_PV.BINARY_INACTIVE)
                else reg.bv_present_value i
            else reg.bv_present_value) := by
  have hb := control_fan_bv ops (read_pm25 ops reg) (read_setpoint ops reg) reg
  have hs := set_error_state_bv (freshness_check (update_monitor reg timer1 mon) timer2)
    (control_fan ops (read_pm25 ops reg) (read_setpoint ops reg) reg)
  rw [hb.1, hb.2.1, hb.2.2] at hs
  exact hs

/-- C12 (counterexample): the PM2.5 object is not valid, the setpoint is 25 and
the fan command is active; the tick writes the fan command (inactive, at
priority 16). -/
theorem C12_invalid_pm25_still_writes_fan :
    (pm25_missing_registry 25 BACNET_BINARY_PV.BINARY_ACTIVE).av_valid PM2_5_OBJECT_INSTANCE
        = false
      ∧ (check_sensor_and_control_fan ratOps 5000000 5000000 (init_sensor_monitoring 0)
          (pm25_missing_registry 25 BACNET_BINARY_PV.BINARY_ACTIVE)).reg.bo_writes
        = [{ instance_id := FAN_COMMAND_OBJECT_INSTANCE,
             value := BACNET_BINARY_PV.BINARY_INACTIVE, priority := 16 }] := by
  refine ⟨rfl, ?_⟩
  rw [(tick_reg_facts _ _ _ _ _).2.1, control_fan_writes]
  have hw : wanted_fan_state ratOps (pm25_missing_registry 25 BACNET_BINARY_PV.BINARY_ACTIVE)
      = BACNET_BINARY_PV.BINARY_INACTIVE := by
    simp [wanted_fan_state, read_pm25, read_setpoint, pm25_missing_registry, ratOps,
      PM2_5_OBJECT_INSTANCE, PM2_5_SETPOINT_OBJECT_INSTANCE]
    norm_num
  rw [hw]
  simp [pm25_missing_registry]

/-- C12 (amended): when the PM2.5 object is not valid the tick uses
`pm25_value = 0.0`, leaves the monitoring variables as they were, and still
runs the fan block: it calls the fan setter exactly when the fan object is
valid and its present value differs from the state the threshold test gives
for 0.0. -/
theorem C12_invalid_pm25_uses_zero {F : Type} (ops : FloatOps F) (timer1 timer2 : Nat)
    (mon : Monitor) (reg : Registry F)
    (hinv : reg.av_valid PM2_5_OBJECT_INSTANCE = false) :
    read_pm25 ops reg = ops.lit_0_0
      ∧ (check_sensor_and_control_fan ops timer1 timer2 mon reg).mon = mon
      ∧ (check_sensor_and_control_fan ops timer1 timer2 mon reg).reg.bo_writes
        = (if reg.bo_valid FAN_COMMAND_OBJECT_INSTANCE = true
              ∧ reg.bo_present_value FAN_COMMAND_OBJECT_INSTANCE
                  ≠ (if ops.gt ops.lit_0_0 (ops.add (read_setpoint ops reg) ops.lit_0_1f)
                      then BACNET_BINARY_PV.BINARY_ACTIVE
                      else BACNET_BINARY_PV.BINARY_INACTIVE)
            then reg.bo_writes ++ [BoWrite.mk FAN_COMMAND_OBJECT_INSTANCE
                (if ops.gt ops.lit_0_0 (ops.add (read_setpoint ops reg) ops.lit_0_1f)
                  then BACNET_BINARY_PV.BINARY_ACTIVE
                  else BACNET_BINARY_PV.BINARY_INACTIVE) 16]
            else reg.bo_writes) := by
  have hp : read_pm25 ops reg = ops.lit_0_0 := by simp [read_pm25, hinv]
  refine ⟨hp, ?_, ?_⟩
  · simp [check_sensor_and_control_fan, update_monitor, hinv]
  · rw [(tick_reg_facts ops timer1 timer2 mon reg).2.1, control_fan_writes]
    simp only [wanted_fan_state, hp]

/-- C12 (amended) at a concrete store: PM2.5 object not valid, setpoint 25,
fan command inactive; the monitoring variables stay and no setter call is made. -/
theorem C12_invalid_pm25_uses_zero_witness :
    read_pm25 ratOps (pm25_missing_registry 25 BACNET_BINARY_PV.BINARY_INACTIVE)
        = ratOps.lit_0_0
      ∧ (check_sensor_and_control_fan ratOps 5000000 5000000 (init_sensor_monitoring 0)
          (pm25_missing_registry 25 BACNET_BINARY_PV.BINARY_INACTIVE)).mon
        = init_sensor_monitoring 0 :=
  ⟨(C12_invalid_pm25_uses_zero ratOps 5000000 5000000 (init_sensor_monitoring 0)
      (pm25_missing_registry 25 BACNET_BINARY_PV.BINARY_INACTIVE) rfl).1,
   (C12_invalid_pm25_uses_zero ratOps 5000000 5000000 (init_sensor_monitoring 0)
      (pm25_missing_registry 25 BACNET_BINARY_PV.BINARY_INACTIVE) rfl).2.1⟩

end ServerTask

namespace PMS5003

/-! ## The stored readings -/

/-- An iteration whose read returns `ESP_OK` publishes the struct it read. -/
theorem iteration_of_ok {σ : Type} (uart : Uart σ) (fuel : Nat) (taken : Bool) (s s2 : σ)
    (data r : pms5003_data_t) (st : Store)
    (hread : pms5003_read_data uart fuel s data = some (esp_err_t.ESP_OK, r, s2)) :
    read_task_iteration uart fuel taken s data st
      = some (publish_reading taken r st, r, s2) := by
  simp [read_task_iteration, hread]

/-- An iteration whose read returns `ESP_FAIL` leaves the store as it was. -/
theorem iteration_of_fail {σ : Type} (uart : Uart σ) (fuel : Nat) (taken : Bool) (s s2 : σ)
    (data d : pms5003_data_t) (st : Store)
    (hread : pms5003_read_data uart fuel s data = some (esp_err_t.ESP_FAIL, d, s2)) :
    read_task_iteration uart fuel taken s data st = some (st, d, s2) := by
  simp [read_task_iteration, hread]

/-- C13: after an iteration of `pms5003_read_task` whose read returns `ESP_OK`
with struct `r` (the mutex, if there is one, being taken), the three getters
return exactly `r.pm10_standard`, `r.pm25_standard`, `r.pm100_standard`
whatever was stored before; the conversion loses nothing; and an iteration
whose read fails afterwards leaves these values in place. -/
theorem C13_getters_return_published {σ τ : Type} (uart : Uart σ) (fuel : Nat) (taken : Bool)
    (s s2 : σ) (data r : pms5003_data_t) (st : Store)
    (hread : pms5003_read_data uart fuel s data = some (esp_err_t.ESP_OK, r, s2))
    (htake : st.pm_mutex = true → taken = true)
    (uart2 : Uart τ) (fuel2 : Nat) (taken2 : Bool) (t t2 : τ) (d2 : pms5003_data_t)
    (hfail : pms5003_read_data uart2 fuel2 t r = some (esp_err_t.ESP_FAIL, d2, t2)) :
    ∃ st1, read_task_iteration uart fuel taken s data st = some (st1, r, s2)
      ∧ pm25_get_pm1_0 true st1 = (r.pm10_standard : ℚ)
      ∧ pm25_get_pm2_5 true st1 = (r.pm25_standard : ℚ)
      ∧ pm25_get_pm10 true st1 = (r.pm100_standard : ℚ)
      ∧ (∀ a b : Nat, float_of_u16 a = float_of_u16 b → a = b)
      ∧ read_task_iteration uart2 fuel2 taken2 t r st1 = some (st1, d2, t2) := by
  refine ⟨publish_reading taken r st, iteration_of_ok uart fuel taken s s2 data r st hread,
    ?_, ?_, ?_, ?_, iteration_of_fail uart2 fuel2 taken2 t t2 r d2 _ hfail⟩
  · by_cases hm : st.pm_mutex = true
    · simp [pm25_get_pm1_0, publish_reading, store_values, float_of_u16, hm, htake hm]
    · simp [pm25_get_pm1_0, publish_reading, store_values, float_of_u16, hm]
  · by_cases hm : st.pm_mutex = true
    · simp [pm25_get_pm2_5, publish_reading, store_values, float_of_u16, hm, htake hm]
    · simp [pm25_get_pm2_5, publish_reading, store_values, float_of_u16, hm]
  · by_cases hm : st.pm_mutex = true
    · simp [pm25_get_pm10, publish_reading, store_values, float_of_u16, hm, htake hm]
    · simp [pm25_get_pm10, publish_reading, store_values, float_of_u16, hm]
  · intro a b h
    exact Nat.cast_injective h

/-- C13 at a concrete line: the frame `good_payload` is decoded and published
over a store holding 7, 8, 9; the getters then return 5, 300, 12, also after a
further iteration that fails on a bad checksum. -/
theorem C13_getters_return_published_witness :
    ∃ st1, read_task_iteration line_read 1 true (frame_line good_payload) data_zero
          { current_pm1_0 := 7, current_pm2_5 := 8, current_pm10 := 9, pm_mutex := true }
        = some (st1, parse_fields good_payload, [])
      ∧ pm25_get_pm1_0 true st1 = 5
      ∧ pm25_get_pm2_5 true st1 = 300
      ∧ pm25_get_pm10 true st1 = 12 := by
  obtain ⟨st1, h1, h2, h3, h4, _, _⟩ :=
    C13_getters_return_published line_read 1 true (frame_line good_payload) [] data_zero
      (parse_fields good_payload)
      { current_pm1_0 := 7, current_pm2_5 := 8, current_pm10 := 9, pm_mutex := true }
      (by decide) (fun _ => rfl) line_read 1 true bad_checksum_line []
      (parse_fields (good_payload.set 29 0x45)) (by decide)
  refine ⟨st1, h1, ?_, ?_, ?_⟩
  · have e : (parse_fields good_payload).pm10_standard = 5 := by decide
    rw [h2, e]; norm_num
  · have e : (parse_fields good_payload).pm25_standard = 300 := by decide
    rw [h3, e]; norm_num
  · have e : (parse_fields good_payload).pm100_standard = 12 := by decide
    rw [h4, e]; norm_num

/-- C14 (counterexample): with the mutex created and nothing published yet,
the three getters return the same as after publishing a reading whose three
values are 0. -/
theorem C14_no_data_same_as_zero_reading :
    (pm25_get_pm1_0 true (pm25_sensor_init true store_boot),
      pm25_get_pm2_5 true (pm25_sensor_init true store_boot),
      pm25_get_pm10 true (pm25_sensor_init true store_boot))
      = (pm25_get_pm1_0 true
          (publish_reading true (reading_of 0 0 0) (pm25_sensor_init true store_boot)),
        pm25_get_pm2_5 true
          (publish_reading true (reading_of 0 0 0) (pm25_sensor_init true store_boot)),
        pm25_get_pm10 true
          (publish_reading true (reading_of 0 0 0) (pm25_sensor_init true store_boot))) := by
  simp [pm25_get_pm1_0, pm25_get_pm2_5, pm25_get_pm10, pm25_sensor_init, store_boot,
    publish_reading, store_values, float_of_u16, reading_of, data_zero]

/-- C14 (amended): before any reading has been published each getter returns
0.0, whether or not the mutex was created and whether or not it is taken, and
that is also what each getter returns after a reading with three zero values
has been published. -/
theorem C14_getters_return_zero_before_publish (created taken : Bool) :
    pm25_get_pm1_0 taken (pm25_sensor_init created store_boot) = 0
      ∧ pm25_get_pm2_5 taken (pm25_sensor_init created store_boot) = 0
      ∧ pm25_get_pm10 taken (pm25_sensor_init created store_boot) = 0
      ∧ pm25_get_pm1_0 taken
          (publish_reading true (reading_of 0 0 0) (pm25_sensor_init created store_boot)) = 0
      ∧ pm25_get_pm2_5 taken
          (publish_reading true (reading_of 0 0 0) (pm25_sensor_init created store_boot)) = 0
      ∧ pm25_get_pm10 taken
          (publish_reading true (reading_of 0 0 0) (pm25_sensor_init created store_boot)) = 0 := by
  cases created <;> cases taken <;>
    simp [pm25_get_pm1_0, pm25_get_pm2_5, pm25_get_pm10, pm25_sensor_init, store_boot,
      publish_reading, store_values, float_of_u16, reading_of, data_zero]

/-- C15: an iteration of `pms5003_read_task` whose read returns `ESP_FAIL`
leaves the store, and so what the three getters return, as before, whatever
the decoder wrote into the task's struct. -/
theorem C15_failed_iteration_keeps_store {σ : Type} (uart : Uart σ) (fuel : Nat)
    (taken taken2 : Bool) (s s2 : σ) (data d : pms5003_data_t) (st : Store)
    (hread : pms5003_read_data uart fuel s data = some (esp_err_t.ESP_FAIL, d, s2)) :
    ∃ st1, read_task_iteration uart fuel taken s data st = some (st1, d, s2)
      ∧ st1 = st
      ∧ pm25_get_pm1_0 taken2 st1 = pm25_get_pm1_0 taken2 st
      ∧ pm25_get_pm2_5 taken2 st1 = pm25_get_pm2_5 taken2 st
      ∧ pm25_get_pm10 taken2 st1 = pm25_get_pm10 taken2 st :=
  ⟨st, iteration_of_fail uart fuel taken s s2 data d st hread, rfl, rfl, rfl, rfl⟩

/-- C15 at a concrete line: the frame fails its checksum after the decoder has
written PM1.0 = 5, PM2.5 = 300, PM10 = 12 into the task's struct; the store
still holds 7, 8, 9. -/
theorem C15_failed_iteration_keeps_store_witness :
    (parse_fields (good_payload.set 29 0x45)).pm25_standard = 300
      ∧ ∃ st1, read_task_iteration line_read 1 true bad_checksum_line data_zero
            { current_pm1_0 := 7, current_pm2_5 := 8, current_pm10 := 9, pm_mutex := true }
          = some (st1, parse_fields (good_payload.set 29 0x45), [])
        ∧ st1 = { current_pm1_0 := 7, current_pm2_5 := 8, current_pm10 := 9, pm_mutex := true } := by
  refine ⟨by decide, ?_⟩
  obtain ⟨st1, h1, h2, _⟩ :=
    C15_failed_iteration_keeps_store line_read 1 true true bad_checksum_line [] data_zero
      (parse_fields (good_payload.set 29 0x45))
      { current_pm1_0 := 7, current_pm2_5 := 8, current_pm10 := 9, pm_mutex := true }
      (by decide)
  exact ⟨st1, h1, h2⟩

/-- C16 (counterexample): the store holds 1, 2, 3; the consumer calls
`pm25_get_pm1_0`, the acquisition task publishes 4, 5, 6, the consumer calls
`pm25_get_pm2_5` and `pm25_get_pm10`.  The triple obtained is 1, 5, 6:
neither the previous reading nor the new one. -/
theorem C16_publish_between_getters_tears :
    run_calls { current_pm1_0 := 1, current_pm2_5 := 2, current_pm10 := 3, pm_mutex := true }
        (publish_after 1 (reading_of 4 5 6)) = [1, 5, 6]
      ∧ ([1, 5, 6] : List ℚ) ≠ [1, 2, 3] ∧ ([1, 5, 6] : List ℚ) ≠ [4, 5, 6] := by
  refine ⟨?_, by norm_num, by norm_num⟩
  simp [run_calls, publish_after, consumer_reads, pm25_get_pm1_0, pm25_get_pm2_5,
    pm25_get_pm10, publish_reading, store_values, float_of_u16, reading_of, data_zero]

/-- What the three getters return with one publish placed after the first
`k` of them. -/
theorem run_calls_publish_after (st : Store) (data : pms5003_data_t) (k : Nat) :
    run_calls st (publish_after k data)
      = [if 1 ≤ k then pm25_get_pm1_0 true st else float_of_u16 data.pm10_standard,
         if 2 ≤ k then pm25_get_pm2_5 true st else float_of_u16 data.pm25_standard,
         if 3 ≤ k then pm25_get_pm10 true st else float_of_u16 data.pm100_standard] := by
  rcases (by omega : k = 0 ∨ k = 1 ∨ k = 2 ∨ 3 ≤ k) with h | h | h | h
  · subst h
    cases hm : st.pm_mutex <;>
      simp [run_calls, publish_after, consumer_reads, pm25_get_pm1_0, pm25_get_pm2_5,
        pm25_get_pm10, publish_reading, store_values, hm]
  · subst h
    cases hm : st.pm_mutex <;>
      simp [run_calls, publish_after, consumer_reads, pm25_get_pm1_0, pm25_get_pm2_5,
        pm25_get_pm10, publish_reading, store_values, hm]
  · subst h
    cases hm : st.pm_mutex <;>
      simp [run_calls, publish_after, consumer_reads, pm25_get_pm1_0, pm25_get_pm2_5,
        pm25_get_pm10, publish_reading, store_values, hm]
  · have h1 : 1 ≤ k := by omega
    have h2 : 2 ≤ k := by omega
    have ht : consumer_reads.take k = consumer_reads :=
      List.take_of_length_le (by simp [consumer_reads]; omega)
    have hd : consumer_reads.drop k = [] :=
      List.drop_of_length_le (by simp [consumer_reads]; omega)
    rw [publish_after, ht, hd]
    simp [consumer_reads, run_calls, h, h1, h2]

/-- C16 (amended): with one publish placed after the first `k` of the three
getter calls (made in the order PM1.0, PM2.5, PM10), each value obtained is
the previous value of its own field when its getter ran before the publish
and the new value when it ran after.  So the triple is the new reading when
the publish comes first, the previous reading when it comes last, and the
previous PM1.0 (and PM2.5) followed by the new remaining fields when it falls
in between. -/
theorem C16_each_getter_old_or_new (st : Store) (data : pms5003_data_t) (k : Nat) :
    run_calls st (publish_after k data)
        = [if 1 ≤ k then pm25_get_pm1_0 true st else float_of_u16 data.pm10_standard,
           if 2 ≤ k then pm25_get_pm2_5 true st else float_of_u16 data.pm25_standard,
           if 3 ≤ k then pm25_get_pm10 true st else float_of_u16 data.pm100_standard]
      ∧ run_calls st (publish_after 0 data)
        = [float_of_u16 data.pm10_standard, float_of_u16 data.pm25_standard,
           float_of_u16 data.pm100_standard]
      ∧ run_calls st (publish_after 1 data)
        = [pm25_get_pm1_0 true st, float_of_u16 data.pm25_standard,
           float_of_u16 data.pm100_standard]
      ∧ run_calls st (publish_after 2 data)
        = [pm25_get_pm1_0 true st, pm25_get_pm2_5 true st,
           float_of_u16 data.pm100_standard]
      ∧ run_calls st (publish_after 3 data)
        = [pm25_get_pm1_0 true st, pm25_get_pm2_5 true st, pm25_get_pm10 true st] := by
  refine ⟨run_calls_publish_after st data k, ?_, ?_, ?_, ?_⟩
  · rw [run_calls_publish_after]; simp
  · rw [run_calls_publish_after]; simp
  · rw [run_calls_publish_after]; simp
  · rw [run_calls_publish_after]; simp

end PMS5003

namespace DisplayTask

/-! ## The display update -/

/-- Every invocation leaves `screen_initialized` true. -/
theorem flag_after_update {F : Type} (fl : DisplayFloat F) (src : Sources F)
    (st : DisplayState F) :
    (smart_update_display fl src st).1.screen_initialized = true := by
  cases h : st.screen_initialized <;> simp [smart_update_display, h]

/-- C18: from a state in which `screen_initialized` is true, every sequence
of `smart_update_display` invocations ends in a state in which it is true,
and a single invocation from any state already makes it true. -/
theorem C18_flag_stays_true {F : Type} (fl : DisplayFloat F) (st : DisplayState F)
    (srcs : List (Sources F)) (h : st.screen_initialized = true) :
    (run_display fl st srcs).screen_initialized = true
      ∧ ∀ (st0 : DisplayState F) (src : Sources F),
          (run_display fl st0 (src :: srcs)).screen_initialized = true := by
  have hrun : ∀ (l : List (Sources F)) (s : DisplayState F), s.screen_initialized = true →
      (run_display fl s l).screen_initialized = true := by
    intro l
    induction l with
    | nil => intro s hs; exact hs
    | cons a t ih =>
      intro s _
      exact ih _ (flag_after_update fl a s)
  exact ⟨hrun srcs st h, fun st0 src => hrun srcs _ (flag_after_update fl src st0)⟩

/-- C18 at a concrete run: after the first paint, two further invocations
leave the flag true. -/
theorem C18_flag_stays_true_witness :
    (run_display ratDisplay
        (smart_update_display ratDisplay (sample_sources 10) (display_task_start ratDisplay)).1
        [sample_sources 40, sample_sources 10]).screen_initialized = true :=
  (C18_flag_stays_true ratDisplay
    (smart_update_display ratDisplay (sample_sources 10) (display_task_start ratDisplay)).1
    [sample_sources 40, sample_sources 10]
    (flag_after_update ratDisplay (sample_sources 10) (display_task_start ratDisplay))).1

theorem ops_at_append (x y : Nat) (a b : List DisplayOp) :
    ops_at x y (a ++ b) = ops_at x y a ++ ops_at x y b := by
  simp [ops_at]

/-- A clear-and-draw pair at `(x1, y1)` is kept by `ops_at x y` when the
positions agree and dropped otherwise. -/
theorem ops_at_pair (x y x1 y1 w h col c1 c2 : Nat) (text : String) (c : Prop) [Decidable c] :
    ops_at x y (if c then [DisplayOp.fill_rect x1 y1 w h col,
        DisplayOp.draw_string x1 y1 text c1 c2] else [])
      = if x1 = x ∧ y1 = y then
          (if c then [DisplayOp.fill_rect x1 y1 w h col,
            DisplayOp.draw_string x1 y1 text c1 c2] else [])
        else [] := by
  by_cases hc : c
  · by_cases hp : x1 = x ∧ y1 = y
    · simp [ops_at, targets, hc, hp]
    · have hb : (x1 == x && y1 == y) = false := by
        simpa [Bool.and_eq_true] using hp
      simp [ops_at, targets, hc, hp, hb]
  · simp [ops_at, hc]

/-- The first-paint block draws nothing at a position right of the left margin. -/
theorem ops_at_first_paint (x y : Nat) (b : Bool) (hx : x ≠ LEFT_MARGIN) :
    ops_at x y (first_paint b) = [] := by
  have hx2 : ¬ LEFT_MARGIN = x := fun e => hx e.symm
  cases b <;> simp [ops_at, first_paint, static_labels, targets, hx2]

/-- The driver calls of one invocation at the positions of the four numeric
values and of the four textual values. -/
theorem ops_at_fields {F : Type} (fl : DisplayFloat F) (src : Sources F)
    (st : DisplayState F) :
    (ops_at DATA_X_PM LINE3_Y (smart_update_display fl src st).2
        = update_pm10 fl st.last_display (read_current fl src)
      ∧ ops_at DATA_X_PM LINE4_Y (smart_update_display fl src st).2
        = update_pm25 fl st.last_display (read_current fl src)
      ∧ ops_at DATA_X_PM LINE5_Y (smart_update_display fl src st).2
        = update_pm100 fl st.last_display (read_current fl src)
      ∧ ops_at DATA_X_SETPOINT LINE6_Y (smart_update_display fl src st).2
        = update_setpoint fl st.last_display (read_current fl src))
    ∧ (ops_at DATA_X_IP LINE2_Y (smart_update_display fl src st).2
        = update_ip st.last_display (read_current fl src)
      ∧ ops_at DATA_X_FAN LINE7_Y (smart_update_display fl src st).2
        = update_fan_cmd st.last_display (read_current fl src)
      ∧ ops_at DATA_X_FAN LINE8_Y (smart_update_display fl src st).2
        = update_fan_status st.last_display (read_current fl src)
      ∧ ops_at DATA_X_ERROR LINE9_Y (smart_update_display fl src st).2
        = update_sensor_error st.last_display (read_current fl src)) := by
  refine ⟨⟨?_, ?_, ?_, ?_⟩, ?_, ?_, ?_, ?_⟩ <;>
    simp only [smart_update_display, value_updates, ops_at_append] <;>
    rw [ops_at_first_paint _ _ _ (by decide)] <;>
    simp only [update_ip, update_pm10, update_pm25, update_pm100, update_setpoint,
      update_fan_cmd, update_fan_status, update_sensor_error, ops_at_pair] <;>
    simp [DATA_X_IP, DATA_X_PM, DATA_X_SETPOINT, DATA_X_FAN, DATA_X_ERROR, LINE2_Y, LINE3_Y,
      LINE4_Y, LINE5_Y, LINE6_Y, LINE7_Y, LINE8_Y, LINE9_Y, LINE1_Y, TOP_MARGIN, LINE_HEIGHT,
      LINE_SPACING]

/-- With the cache equal to the current values and the first paint done,
an invocation over the rationals makes no driver call. -/
theorem unchanged_no_ops (src : Sources ℚ) :
    (smart_update_display ratDisplay src
      { last_display := read_current ratDisplay src, screen_initialized := true }).2 = [] := by
  simp [smart_update_display, first_paint, value_updates, update_ip, update_pm10, update_pm25,
    update_pm100, update_setpoint, update_fan_cmd, update_fan_status, update_sensor_error,
    ratDisplay]

/-- C19: for every cache and every current values, the driver calls of
`smart_update_display` at the position of a numeric value (PM1.0, PM2.5,
PM10, setpoint) are a `display_fill_rect` followed by a `display_draw_string`
when `fabsf(cached - current) > 0.1f`, and none otherwise.  Over the
rationals, after first paint: nothing is drawn when no value changed; PM2.5
going from 10.0 to 10.05 draws nothing; PM2.5 going from 10.0 to 10.2 makes
exactly one clear and one draw, at the PM2.5 position. -/
theorem C19_numeric_redraw_iff_delta {F : Type} (fl : DisplayFloat F) (src : Sources F)
    (st : DisplayState F) :
    ops_at DATA_X_PM LINE3_Y (smart_update_display fl src st).2
        = (if fl.gt (fl.fabsf (fl.sub st.last_display.pm10 (get_pm10_value fl src)))
              fl.lit_0_1f = true
           then [DisplayOp.fill_rect DATA_X_PM LINE3_Y 80 LINE_HEIGHT DISP_BLACK,
                 DisplayOp.draw_string DATA_X_PM LINE3_Y (fl.fmt_1f (get_pm10_value fl src))
                   DISP_CYAN DISP_BLACK]
           else [])
      ∧ ops_at DATA_X_PM LINE4_Y (smart_update_display fl src st).2
        = (if fl.gt (fl.fabsf (fl.sub st.last_display.pm25 (get_pm25_value fl src)))
              fl.lit_0_1f = true
           then [DisplayOp.fill_rect DATA_X_PM LINE4_Y 80 LINE_HEIGHT DISP_BLACK,
                 DisplayOp.draw_string DATA_X_PM LINE4_Y (fl.fmt_1f (get_pm25_value fl src))
                   (pm25_color fl (get_pm25_value fl src)) DISP_BLACK]
           else [])
      ∧ ops_at DATA_X_PM LINE5_Y (smart_update_display fl src st).2
        = (if fl.gt (fl.fabsf (fl.sub st.last_display.pm100 (get_pm100_value fl src)))
              fl.lit_0_1f = true
           then [DisplayOp.fill_rect DATA_X_PM LINE5_Y 80 LINE_HEIGHT DISP_BLACK,
                 DisplayOp.draw_string DATA_X_PM LINE5_Y (fl.fmt_1f (get_pm100_value fl src))
                   DISP_CYAN DISP_BLACK]
           else [])
      ∧ ops_at DATA_X_SETPOINT LINE6_Y (smart_update_display fl src st).2
        = (if fl.gt (fl.fabsf (fl.sub st.last_display.setpoint (get_pm25_setpoint fl src)))
              fl.lit_0_1f = true
           then [DisplayOp.fill_rect DATA_X_SETPOINT LINE6_Y 80 LINE_HEIGHT DISP_BLACK,
                 DisplayOp.draw_string DATA_X_SETPOINT LINE6_Y
                   (fl.fmt_1f (get_pm25_setpoint fl src)) DISP_WHITE DISP_BLACK]
           else [])
      ∧ (∀ src0 : Sources ℚ,
          (smart_update_display ratDisplay src0
            { last_display := read_current ratDisplay src0, screen_initialized := true }).2
            = [])
      ∧ (smart_update_display ratDisplay (sample_sources (1005 / 100))
          { last_display := read_current ratDisplay (sample_sources 10),
            screen_initialized := true }).2 = []
      ∧ (smart_update_display ratDisplay (sample_sources (102 / 10))
          { last_display := read_current ratDisplay (sample_sources 10),
            screen_initialized := true }).2
        = [DisplayOp.fill_rect DATA_X_PM LINE4_Y 80 LINE_HEIGHT DISP_BLACK,
           DisplayOp.draw_string DATA_X_PM LINE4_Y (fmt_tenths (102 / 10))
             DISP_GREEN DISP_BLACK] := by
  have hf := (ops_at_fields fl src st).1
  refine ⟨hf.1, hf.2.1, hf.2.2.1, hf.2.2.2, unchanged_no_ops, ?_, ?_⟩
  · simp [smart_update_display, first_paint, value_updates, update_ip, update_pm10,
      update_pm25, update_pm100, update_setpoint, update_fan_cmd, update_fan_status,
      update_sensor_error, read_current, get_pm10_value, get_pm25_value, get_pm100_value,
      get_pm25_setpoint, sample_sources, ratDisplay, PM1_0_OBJECT_INSTANCE,
      PM2_5_OBJECT_INSTANCE, PM10_OBJECT_INSTANCE, PM2_5_SETPOINT_INSTANCE,
      get_fan_command_status, get_fan_actual_status, get_sensor_error_status]
    rw [abs_le]
    norm_num
  · simp [smart_update_display, first_paint, value_updates, update_ip, update_pm10,
      update_pm25, update_pm100, update_setpoint, update_fan_cmd, update_fan_status,
      update_sensor_error, read_current, get_pm10_value, get_pm25_value, get_pm100_value,
      get_pm25_setpoint, sample_sources, ratDisplay, PM1_0_OBJECT_INSTANCE,
      PM2_5_OBJECT_INSTANCE, PM10_OBJECT_INSTANCE, PM2_5_SETPOINT_INSTANCE, pm25_color,
      get_fan_command_status, get_fan_actual_status, get_sensor_error_status]
    have h : ((10 : ℚ)⁻¹ < |10 - 102 / 10|) := by
      rw [lt_abs]
      norm_num
    rw [if_pos h]
    norm_num

/-- C20: for every cache and every current values, the driver calls of
`smart_update_display` at the position of a textual value (IP address, fan
command, fan status, sensor error) are a `display_fill_rect` followed by a
`display_draw_string` of the current string when the cached string and the
current string differ, and none when they are equal. -/
theorem C20_text_redraw_iff_differs {F : Type} (fl : DisplayFloat F) (src : Sources F)
    (st : DisplayState F) :
    ops_at DATA_X_IP LINE2_Y (smart_update_display fl src st).2
        = (if st.last_display.ip_addr ≠ src.device_ip
           then [DisplayOp.fill_rect DATA_X_IP LINE2_Y 100 LINE_HEIGHT DISP_BLACK,
                 DisplayOp.draw_string DATA_X_IP LINE2_Y src.device_ip DISP_WHITE DISP_BLACK]
           else [])
      ∧ ops_at DATA_X_FAN LINE7_Y (smart_update_display fl src st).2
        = (if st.last_display.fan_cmd ≠ get_fan_command_status src
           then [DisplayOp.fill_rect DATA_X_FAN LINE7_Y 30 LINE_HEIGHT DISP_BLACK,
                 DisplayOp.draw_string DATA_X_FAN LINE7_Y (get_fan_command_status src)
                   (if get_fan_command_status src = "ON" then DISP_GREEN else DISP_WHITE)
                   DISP_BLACK]
           else [])
      ∧ ops_at DATA_X_FAN LINE8_Y (smart_update_display fl src st).2
        = (if st.last_display.fan_status ≠ get_fan_actual_status src
           then [DisplayOp.fill_rect DATA_X_FAN LINE8_Y 30 LINE_HEIGHT DISP_BLACK,
                 DisplayOp.draw_string DATA_X_FAN LINE8_Y (get_fan_actual_status src)
                   (if get_fan_actual_status src = "ON" then DISP_GREEN else DISP_WHITE)
                   DISP_BLACK]
           else [])
      ∧ ops_at DATA_X_ERROR LINE9_Y (smart_update_display fl src st).2
        = (if st.last_display.sensor_error ≠ get_sensor_error_status src
           then [DisplayOp.fill_rect DATA_X_ERROR LINE9_Y 40 LINE_HEIGHT DISP_BLACK,
                 DisplayOp.draw_string DATA_X_ERROR LINE9_Y (get_sensor_error_status src)
                   (if get_sensor_error_status src = "ERROR" then DISP_RED else DISP_GREEN)
                   DISP_BLACK]
           else []) := by
  have hf := (ops_at_fields fl src st).2
  refine ⟨?_, ?_, ?_, ?_⟩
  · rw [hf.1]
    simp only [update_ip, read_current, bne_iff_ne]
  · rw [hf.2.1]
    simp only [update_fan_cmd, read_current, bne_iff_ne, beq_iff_eq]
  · rw [hf.2.2.1]
    simp only [update_fan_status, read_current, bne_iff_ne, beq_iff_eq]
  · rw [hf.2.2.2]
    simp only [update_sensor_error, read_current, bne_iff_ne, beq_iff_eq]

end DisplayTask

namespace PMS5003

/-! ## Field layout and range of the checksum sum -/

/-- C23: after a full 30-byte read of bytes, each of the fifteen fields
`pms5003_read_data` leaves in the struct (frame length, thirteen
measurements, checksum; field index `i` from 0 to 14 in declaration order)
equals `256 * buffer[2i] + buffer[2i+1]` and is below 65536. -/
theorem C23_fields_big_endian {σ : Type} (uart : Uart σ) (fuel : Nat) (s s1 s2 : σ)
    (data : pms5003_data_t) (buffer : List Nat)
    (hsync : sync_loop uart fuel s = some s1)
    (hread : uart s1 30 = (some buffer, s2))
    (hlen : buffer.length = 30)
    (hbytes : ∀ b ∈ buffer, b < 256) :
    ∃ e d, pms5003_read_data uart fuel s data = some (e, d, s2)
      ∧ (fields_list d).length = 15
      ∧ ∀ i, i < 15 →
          (fields_list d).getD i 0 = 256 * at_index buffer (2 * i) + at_index buffer (2 * i + 1)
            ∧ (fields_list d).getD i 0 < 65536 := by
  refine ⟨(decode_payload (some buffer) data).1, parse_fields buffer, ?_, rfl, ?_⟩
  · rw [read_data_of_sync uart fuel s s1 data hsync, hread, decode_payload_full buffer data hlen]
  · have key : ∀ j, be16 (at_index buffer (2 * j)) (at_index buffer (2 * j + 1))
        = 256 * at_index buffer (2 * j) + at_index buffer (2 * j + 1) :=
      fun j => be16_eq _ _ (at_index_lt buffer hbytes _) (at_index_lt buffer hbytes _)
    intro i hi
    have hfield : (fields_list (parse_fields buffer)).getD i 0
        = be16 (at_index buffer (2 * i)) (at_index buffer (2 * i + 1)) := by
      interval_cases i <;> rfl
    rw [hfield, key i]
    have h1 := at_index_lt buffer hbytes (2 * i)
    have h2 := at_index_lt buffer hbytes (2 * i + 1)
    exact ⟨rfl, by omega⟩

/-- C23 at a concrete line: the fields decoded from `good_payload`. -/
theorem C23_fields_big_endian_witness :
    ∃ e d, pms5003_read_data line_read 1 (frame_line good_payload) data_zero = some (e, d, [])
      ∧ (fields_list d).length = 15
      ∧ ∀ i, i < 15 →
          (fields_list d).getD i 0
              = 256 * at_index good_payload (2 * i) + at_index good_payload (2 * i + 1)
            ∧ (fields_list d).getD i 0 < 65536 :=
  C23_fields_big_endian line_read 1 (frame_line good_payload) (good_payload.map some) []
    data_zero good_payload rfl rfl rfl (by decide)

/-- C26: for a 30-byte buffer of bytes the loop of lines 105-108 never wraps:
the sum is `0x42 + 0x4D + buffer[0] + ... + buffer[27]`, at most 7283; so a
full read whose checksum field exceeds 7283 makes the call return `ESP_FAIL`. -/
theorem C26_checksum_never_wraps {σ : Type} (uart : Uart σ) (fuel : Nat) (s s1 s2 : σ)
    (data : pms5003_data_t) (buffer : List Nat)
    (hsync : sync_loop uart fuel s = some s1)
    (hread : uart s1 30 = (some buffer, s2))
    (hlen : buffer.length = 30)
    (hbytes : ∀ b ∈ buffer, b < 256) :
    checksum_loop buffer = 0x42 + 0x4D + (buffer.take 28).sum
      ∧ checksum_loop buffer ≤ 7283
      ∧ (7283 < 256 * at_index buffer 28 + at_index buffer 29 →
          ∃ d, pms5003_read_data uart fuel s data = some (esp_err_t.ESP_FAIL, d, s2)) := by
  have hle := sum_range_at_index_le buffer hbytes 28
  have hsum := sum_range_at_index buffer 28 (by omega)
  have heq : checksum_loop buffer = 0x42 + 0x4D + (buffer.take 28).sum := by
    rw [checksum_loop_eq, hsum]
    rw [hsum] at hle
    omega
  have hbound : checksum_loop buffer ≤ 7283 := by
    rw [heq]
    rw [hsum] at hle
    omega
  refine ⟨heq, hbound, ?_⟩
  intro hbig
  refine ⟨parse_fields buffer, ?_⟩
  rw [read_data_of_sync uart fuel s s1 data hsync, hread, decode_payload_full buffer data hlen]
  have hne : checksum_loop buffer ≠ (parse_fields buffer).checksum := by
    rw [parse_checksum_eq buffer hbytes]
    omega
  simp [hne]

/-- C26 at a concrete line: a frame whose checksum field is 0xFF44 is rejected. -/
theorem C26_checksum_never_wraps_witness :
    checksum_loop big_checksum_payload ≤ 7283
      ∧ ∃ d, pms5003_read_data line_read 1 (frame_line big_checksum_payload) data_zero
          = some (esp_err_t.ESP_FAIL, d, []) :=
  ⟨(C26_checksum_never_wraps line_read 1 (frame_line big_checksum_payload)
      (big_checksum_payload.map some) [] data_zero big_checksum_payload rfl rfl rfl
      (by decide)).2.1,
   (C26_checksum_never_wraps line_read 1 (frame_line big_checksum_payload)
      (big_checksum_payload.map some) [] data_zero big_checksum_payload rfl rfl rfl
      (by decide)).2.2 (by decide)⟩

end PMS5003

namespace ServerTask

/-! ## Clock arithmetic of the control loop -/

/-- Subtraction modulo 2^32 of two truncated millisecond counts gives the
true difference when that is below 2^32. -/
theorem sub_u32_elapsed (m1 m2 : Nat) (hle : m1 ≤ m2) (hlt : m2 - m1 < 4294967296) :
    sub_u32 (m2 % 4294967296) (m1 % 4294967296) = m2 - m1 := by
  unfold sub_u32
  omega

/-- C25: in a tick in which the PM2.5 object is valid, with at most 30000 ms
between the clock reads of lines 62 and 81, `check_sensor_and_control_fan`
sets `last_sensor_update_time` to the clock of line 62 and `sensor_has_data`
to true and computes `sensor_error = false`, whatever the monitoring
variables held before. -/
theorem C25_valid_object_resets_age {F : Type} (ops : FloatOps F) (timer1 timer2 : Nat)
    (mon : Monitor) (reg : Registry F)
    (hvalid : reg.av_valid PM2_5_OBJECT_INSTANCE = true)
    (hle : timer1 ≤ timer2)
    (hgap : timer2 / 1000 - timer1 / 1000 ≤ 30000) :
    (check_sensor_and_control_fan ops timer1 timer2 mon reg).sensor_error = false
      ∧ (check_sensor_and_control_fan ops timer1 timer2 mon reg).mon
        = { last_sensor_update_time := millis timer1, sensor_has_data := true } := by
  have hdiv : timer1 / 1000 ≤ timer2 / 1000 := Nat.div_le_div_right hle
  have hsub : sub_u32 (millis timer2) (millis timer1) = timer2 / 1000 - timer1 / 1000 :=
    sub_u32_elapsed _ _ hdiv (by omega)
  constructor
  · simp only [check_sensor_and_control_fan, update_monitor, hvalid, if_true, freshness_check,
      hsub, SENSOR_TIMEOUT_MS]
    simp
    omega
  · simp [check_sensor_and_control_fan, update_monitor, hvalid]

/-- C25 at a concrete store: the last update was at time 0, the tick runs ten
hours later with the PM2.5 object valid, and the fault is false. -/
theorem C25_valid_object_resets_age_witness :
    (check_sensor_and_control_fan ratOps 36000000000 36000002000
        { last_sensor_update_time := 0, sensor_has_data := true }
        (sample_registry 0 25 BACNET_BINARY_PV.BINARY_INACTIVE)).sensor_error = false :=
  (C25_valid_object_resets_age ratOps 36000000000 36000002000
    { last_sensor_update_time := 0, sensor_has_data := true }
    (sample_registry 0 25 BACNET_BINARY_PV.BINARY_INACTIVE) rfl (by decide) (by decide)).1

/-- C28: for two clock samples (in microseconds) whose millisecond counts are
less than 2^32 apart, the `uint32_t` subtraction of the truncated counts is
the true number of elapsed milliseconds, so the staleness test of line 84 and
the period test of line 179 compare the true elapsed time, also when the
truncated clock wrapped between the samples. -/
theorem C28_elapsed_time_wrap_safe (timer1 timer2 : Nat)
    (hle : timer1 ≤ timer2)
    (hlt : timer2 / 1000 - timer1 / 1000 < 4294967296) :
    sub_u32 (millis timer2) (millis timer1) = timer2 / 1000 - timer1 / 1000
      ∧ freshness_check { last_sensor_update_time := millis timer1, sensor_has_data := true }
          timer2 = decide (SENSOR_TIMEOUT_MS < timer2 / 1000 - timer1 / 1000)
      ∧ check_due (millis timer2) (millis timer1)
          = decide (CHECK_INTERVAL_MS ≤ timer2 / 1000 - timer1 / 1000) := by
  have hdiv : timer1 / 1000 ≤ timer2 / 1000 := Nat.div_le_div_right hle
  have hsub : sub_u32 (millis timer2) (millis timer1) = timer2 / 1000 - timer1 / 1000 :=
    sub_u32_elapsed _ _ hdiv hlt
  refine ⟨hsub, ?_, ?_⟩
  · simp only [freshness_check, if_true, hsub]
    by_cases h : SENSOR_TIMEOUT_MS < timer2 / 1000 - timer1 / 1000 <;> simp [h]
  · simp only [check_due, hsub]

/-- C28 at concrete samples: the truncated clock wraps between the samples
(4294967290 ms, then 4 ms) and the subtraction gives the 10 ms that elapsed. -/
theorem C28_elapsed_time_wrap_safe_witness :
    millis 4294967300000 < millis 4294967290000
      ∧ sub_u32 (millis 4294967300000) (millis 4294967290000) = 10 :=
  ⟨by decide,
   (C28_elapsed_time_wrap_safe 4294967290000 4294967300000 (by decide) (by decide)).1⟩

end ServerTask

namespace DisplayTask

/-! ## The display cache -/

/-- C21: after an invocation of `smart_update_display` the cache
`last_display` is the `current` tuple built in that invocation, in every
field, whatever the cache held before and whatever was drawn. -/
theorem C21_cache_overwritten {F : Type} (fl : DisplayFloat F) (src : Sources F)
    (st : DisplayState F) :
    (smart_update_display fl src st).1.last_display = read_current fl src
      ∧ (smart_update_display fl src st).1.last_display.ip_addr = src.device_ip
      ∧ (smart_update_display fl src st).1.last_display.pm10 = get_pm10_value fl src
      ∧ (smart_update_display fl src st).1.last_display.pm25 = get_pm25_value fl src
      ∧ (smart_update_display fl src st).1.last_display.pm100 = get_pm100_value fl src
      ∧ (smart_update_display fl src st).1.last_display.setpoint = get_pm25_setpoint fl src
      ∧ (smart_update_display fl src st).1.last_display.fan_cmd = get_fan_command_status src
      ∧ (smart_update_display fl src st).1.last_display.fan_status
          = get_fan_actual_status src
      ∧ (smart_update_display fl src st).1.last_display.sensor_error
          = get_sensor_error_status src :=
  ⟨rfl, rfl, rfl, rfl, rfl, rfl, rfl, rfl, rfl⟩

/-- The colour of the PM2.5 value over the rationals. -/
theorem pm25_color_rat (v : ℚ) :
    pm25_color ratDisplay v
      = if 35 < v then DISP_RED else if 12 < v then DISP_YELLOW else DISP_GREEN := by
  simp [pm25_color, ratDisplay]

/-- C22 (counterexample): PM2.5 goes from 10 to exactly 12 after first paint;
the value is redrawn in green, not yellow. -/
theorem C22_pm25_twelve_is_green :
    ops_at DATA_X_PM LINE4_Y
        (smart_update_display ratDisplay (sample_sources 12)
          { last_display := read_current ratDisplay (sample_sources 10),
            screen_initialized := true }).2
        = [DisplayOp.fill_rect DATA_X_PM LINE4_Y 80 LINE_HEIGHT DISP_BLACK,
           DisplayOp.draw_string DATA_X_PM LINE4_Y (fmt_tenths 12) DISP_GREEN DISP_BLACK]
      ∧ DISP_GREEN ≠ DISP_YELLOW := by
  refine ⟨?_, by decide⟩
  rw [(ops_at_fields _ _ _).1.2.1]
  have h : ((1 : ℚ) / 10 < |10 - 12|) := by
    rw [lt_abs]
    norm_num
  have hv : get_pm25_value ratDisplay (sample_sources 12) = 12 := by
    simp [get_pm25_value, sample_sources, PM2_5_OBJECT_INSTANCE, PM1_0_OBJECT_INSTANCE]
  have hl : get_pm25_value ratDisplay (sample_sources 10) = 10 := by
    simp [get_pm25_value, sample_sources, PM2_5_OBJECT_INSTANCE, PM1_0_OBJECT_INSTANCE]
  have hc : ratDisplay.gt (ratDisplay.fabsf (ratDisplay.sub 10 12)) ratDisplay.lit_0_1f
      = true := by
    simpa [ratDisplay] using h
  simp only [update_pm25, read_current, hv, hl, hc, if_true, pm25_color_rat]
  norm_num [ratDisplay]

/-- C22 (amended): the colour of a PM2.5 redraw is red when `v > 35.0f`,
yellow when `v > 12.0f` but not `v > 35.0f`, green otherwise; over the
rationals: red above 35, yellow above 12 up to and including 35, green up to
and including 12. -/
theorem C22_pm25_colour_strict {F : Type} (fl : DisplayFloat F) (src : Sources F)
    (st : DisplayState F) :
    (∀ op ∈ ops_at DATA_X_PM LINE4_Y (smart_update_display fl src st).2,
        op = DisplayOp.fill_rect DATA_X_PM LINE4_Y 80 LINE_HEIGHT DISP_BLACK
          ∨ op = DisplayOp.draw_string DATA_X_PM LINE4_Y (fl.fmt_1f (get_pm25_value fl src))
              (if fl.gt (get_pm25_value fl src) fl.lit_35_0f = true then DISP_RED
                else if fl.gt (get_pm25_value fl src) fl.lit_12_0f = true then DISP_YELLOW
                else DISP_GREEN) DISP_BLACK)
      ∧ (∀ v : ℚ, pm25_color ratDisplay v
          = if 35 < v then DISP_RED else if 12 < v then DISP_YELLOW else DISP_GREEN)
      ∧ pm25_color ratDisplay 12 = DISP_GREEN
      ∧ pm25_color ratDisplay 35 = DISP_YELLOW := by
  refine ⟨?_, pm25_color_rat, ?_, ?_⟩
  · intro op hop
    rw [(ops_at_fields fl src st).1.2.1] at hop
    simp only [update_pm25, read_current, pm25_color] at hop
    split_ifs at hop <;> simp_all
  · rw [pm25_color_rat]; norm_num
  · rw [pm25_color_rat]; norm_num

end DisplayTask

namespace DisplayTask

/-! ## First draw and slow drift -/

/-- The string `get_device_ip` produces is never empty. -/
theorem get_device_ip_ne_empty (n : NetifState) : get_device_ip n ≠ "" := by
  cases n with
  | no_netif => decide
  | no_ip_info => decide
  | ip a b c d =>
    intro h
    have hl := congrArg String.length h
    simp [get_device_ip, String.length_append] at hl
    exact absurd hl.1.1.1.1.1.2 (by decide)

/-- None of the three status tokens is the string the cache starts with. -/
theorem status_tokens_ne_init {F : Type} (src : Sources F) :
    "INIT" ≠ get_fan_command_status src ∧ "INIT" ≠ get_fan_actual_status src
      ∧ "INIT" ≠ get_sensor_error_status src := by
  refine ⟨?_, ?_, ?_⟩
  · simp only [get_fan_command_status]
    split_ifs <;> decide
  · simp only [get_fan_actual_status]
    split_ifs <;> decide
  · simp only [get_sensor_error_status]
    split_ifs <;> decide

/-- The definition of `round32` with its unit in the last place written out. -/
theorem round32_def (q : ℚ) :
    round32 q = (round_half_even (q / 2 ^ (max (Int.log 2 |q|) (-126) - 23)) : ℚ)
      * 2 ^ (max (Int.log 2 |q|) (-126) - 23) := rfl

/-- Rounding to the nearest integer moves to the floor or to the next integer. -/
theorem round_half_even_bounds (y : ℚ) :
    (round_half_even y = ⌊y⌋ ∧ y - ⌊y⌋ ≤ 1 / 2)
      ∨ (round_half_even y = ⌊y⌋ + 1 ∧ 1 / 2 ≤ y - ⌊y⌋) := by
  unfold round_half_even
  split_ifs with h1 h2 h3
  · exact Or.inl ⟨rfl, le_of_lt h1⟩
  · exact Or.inr ⟨rfl, le_of_lt h2⟩
  · exact Or.inl ⟨rfl, not_lt.mp h2⟩
  · exact Or.inr ⟨rfl, not_lt.mp h1⟩

/-- A value at or below an integer rounds to an integer at or below it. -/
theorem round_half_even_le (y : ℚ) (n : Int) (h : y ≤ n) : round_half_even y ≤ n := by
  have hn : ⌊y⌋ ≤ n := Int.floor_le_iff.mpr (by linarith [Int.lt_floor_add_one y] : y < n + 1)
  rcases round_half_even_bounds y with ⟨e, _⟩ | ⟨e, hr⟩
  · rw [e]; exact hn
  · rw [e]
    by_contra hc
    have : ⌊y⌋ = n := by omega
    rw [this] at hr
    linarith

/-- A value less than one half away from an integer rounds to it. -/
theorem round_half_even_eq (y : ℚ) (n : Int) (h1 : (n : ℚ) - 1 / 2 < y)
    (h2 : y < (n : ℚ) + 1 / 2) : round_half_even y = n := by
  have hf := Int.floor_le y
  have hl := Int.lt_floor_add_one y
  rcases round_half_even_bounds y with ⟨e, hr⟩ | ⟨e, hr⟩
  · rw [e]
    have a1 : ((⌊y⌋ : ℤ) : ℚ) < n + 1 := by linarith
    have a2 : ((n : ℤ) : ℚ) < ⌊y⌋ + 1 := by linarith
    have b1 : ⌊y⌋ < n + 1 := by exact_mod_cast a1
    have b2 : n < ⌊y⌋ + 1 := by exact_mod_cast a2
    omega
  · rw [e]
    have a1 : ((⌊y⌋ : ℤ) : ℚ) + 1 < n + 1 := by linarith
    have a2 : ((n : ℤ) : ℚ) < ⌊y⌋ + 1 + 1 := by linarith
    have b1 : ⌊y⌋ + 1 < n + 1 := by exact_mod_cast a1
    have b2 : n < ⌊y⌋ + 1 + 1 := by exact_mod_cast a2
    omega

/-- An integer rounds to itself. -/
theorem round_half_even_int (m : Int) : round_half_even (m : ℚ) = m :=
  round_half_even_eq _ _ (by linarith) (by linarith)

/-- The binary exponent of a positive rational between two successive powers of two. -/
theorem log2_eq (r : ℚ) (e : Int) (h1 : (2 : ℚ) ^ e ≤ r) (h2 : r < (2 : ℚ) ^ (e + 1)) :
    Int.log 2 r = e := by
  have hr : 0 < r := lt_of_lt_of_le (by positivity) h1
  have a : e ≤ Int.log 2 r :=
    (Int.zpow_le_iff_le_log (by norm_num) hr).mp (by exact_mod_cast h1)
  have b : Int.log 2 r < e + 1 :=
    (Int.lt_zpow_iff_log_lt (by norm_num) hr).mp (by exact_mod_cast h2)
  omega

/-- A multiple of the unit in the last place of its own binade is a binary32 value. -/
theorem round32_exact (q : ℚ) (e m : Int) (h1 : (2 : ℚ) ^ e ≤ |q|)
    (h2 : |q| < (2 : ℚ) ^ (e + 1)) (he : -126 ≤ e) (hm : q = (m : ℚ) * 2 ^ (e - 23)) :
    round32 q = q := by
  rw [round32_def, log2_eq _ e h1 h2, max_eq_left he]
  have hu : (0 : ℚ) < 2 ^ (e - 23) := by positivity
  have : q / 2 ^ (e - 23) = (m : ℚ) := by
    rw [hm]; field_simp
  simp only [this, round_half_even_int]
  exact hm.symm

/-- The same for the negative of a positive value. -/
theorem round32_exact_neg (p : ℚ) (e m : Int) (h1 : (2 : ℚ) ^ e ≤ p)
    (h2 : p < (2 : ℚ) ^ (e + 1)) (he : -126 ≤ e) (hm : p = (m : ℚ) * 2 ^ (e - 23)) :
    round32 (-p) = -p := by
  have hp : 0 < p := lt_of_lt_of_le (by positivity) h1
  refine round32_exact (-p) e (-m) ?_ ?_ he ?_
  · rw [abs_neg, abs_of_pos hp]; exact h1
  · rw [abs_neg, abs_of_pos hp]; exact h2
  · rw [hm]; push_cast; ring

/-- A value at or below -1/8 rounds to a binary32 value at or below -1/8. -/
theorem round32_le_neg_eighth (x : ℚ) (h : x ≤ -(1 / 8)) : round32 x ≤ -(1 / 8) := by
  have hx : 0 < |x| := abs_pos.mpr (by linarith)
  have habs : |x| = -x := abs_of_neg (by linarith)
  have hlog : (-3 : ℤ) ≤ Int.log 2 |x| :=
    (Int.zpow_le_iff_le_log (by norm_num) hx).mp (by rw [habs]; norm_num; linarith)
  have hpow : (2 : ℚ) ^ Int.log 2 |x| ≤ |x| := by
    have := Int.zpow_log_le_self (b := 2) (by norm_num) hx
    exact_mod_cast this
  rw [round32_def, max_eq_left (by omega)]
  set e := Int.log 2 |x| with he
  have hu : (0 : ℚ) < 2 ^ (e - 23) := by positivity
  have hsplit : (2 : ℚ) ^ e = 2 ^ (23 : ℤ) * 2 ^ (e - 23) := by
    rw [← zpow_add₀ (by norm_num)]; congr 1; ring
  have h23 : (2 : ℚ) ^ (23 : ℤ) = 8388608 := by norm_num
  have hq : x / 2 ^ (e - 23) ≤ ((-(8388608 : ℤ) : ℤ) : ℚ) := by
    rw [div_le_iff₀ hu]
    push_cast
    rw [habs, hsplit, h23] at hpow
    linarith
  have hr := round_half_even_le _ _ hq
  have hr2 : ((round_half_even (x / 2 ^ (e - 23)) : ℤ) : ℚ) ≤ -(8388608 : ℚ) := by
    exact_mod_cast hr
  have h8 : (1 : ℚ) / 8 ≤ 2 ^ e := by
    have : (2 : ℚ) ^ (-3 : ℤ) ≤ 2 ^ e := zpow_le_zpow_right₀ (by norm_num) hlog
    norm_num at this
    linarith
  rw [hsplit, h23] at h8
  nlinarith

/-- A binary32 value of magnitude at least 2^20 is a multiple of 1/8. -/
theorem f32_grid_eighth (q : ℚ) (hq : round32 q = q) (h : (1048576 : ℚ) ≤ |q|) :
    ∃ k : Int, q = (k : ℚ) / 8 := by
  have hx : 0 < |q| := by linarith
  have hlog : (20 : ℤ) ≤ Int.log 2 |q| :=
    (Int.zpow_le_iff_le_log (by norm_num) hx).mp (by norm_num; linarith)
  rw [round32_def, max_eq_left (by omega)] at hq
  set e := Int.log 2 |q| with he
  obtain ⟨n, hn⟩ : ∃ n : Nat, e - 23 = (n : ℤ) - 3 := ⟨(e - 20).toNat, by omega⟩
  rw [hn] at hq
  have hp : (2 : ℚ) ^ ((n : ℤ) - 3) = (2 : ℚ) ^ n / 8 := by
    rw [zpow_sub₀ (by norm_num), zpow_natCast]; norm_num
  rw [hp] at hq
  refine ⟨round_half_even (q / (2 ^ n / 8)) * 2 ^ n, ?_⟩
  push_cast
  rw [mul_div_assoc]
  exact hq.symm

/-- The literal `0.1f` in binary32. -/
theorem lit_0_1f_value : round32 (1 / 10) = 13421773 / 134217728 := by
  rw [round32_def]
  have : Int.log 2 |(1 / 10 : ℚ)| = -4 := by
    apply log2_eq
    · rw [abs_of_pos (by norm_num)]; norm_num
    · rw [abs_of_pos (by norm_num)]; norm_num
  rw [this, max_eq_left (by norm_num)]
  have h : round_half_even ((1 / 10 : ℚ) / 2 ^ ((-4 : ℤ) - 23)) = 13421773 := by
    apply round_half_even_eq <;> norm_num
  rw [h]
  norm_num

/-- The test `fabsf(a - b) > 0.1f` in binary32. -/
theorem f32_step_test (a b : ℚ) :
    f32Display.gt (f32Display.fabsf (f32Display.sub a b)) f32Display.lit_0_1f
      = decide ((13421773 : ℚ) / 134217728 < |round32 (a - b)|) := by
  show decide (round32 (1 / 10) < |round32 (a - b)|) = _
  rw [lit_0_1f_value]

/-- The binary32 value nearest to zero is zero. -/
theorem round32_zero : round32 0 = 0 := by
  simp [round32, round_half_even]

/-- C24: with a setpoint of -100.0 the first invocation after `display_task`
has installed its cache values draws no setpoint value, in exact arithmetic
and in binary32 alike: the cache value -100.0 of line 327 is a value the
setpoint can take, and `fabsf(-100.0f - -100.0f) > 0.1f` is false, so the
first draw of that field is not forced. -/
theorem C24_setpoint_minus100_not_drawn :
    ops_at DATA_X_SETPOINT LINE6_Y
        (smart_update_display ratDisplay minus100_sources (display_task_start ratDisplay)).2
        = []
      ∧ ops_at DATA_X_SETPOINT LINE6_Y
        (smart_update_display f32Display minus100_sources (display_task_start f32Display)).2
        = [] := by
  constructor
  · rw [(ops_at_fields _ _ _).1.2.2.2]
    simp [update_setpoint, read_current, get_pm25_setpoint, minus100_sources,
      display_task_start, ratDisplay, PM2_5_SETPOINT_INSTANCE, PM1_0_OBJECT_INSTANCE,
      PM2_5_OBJECT_INSTANCE, PM10_OBJECT_INSTANCE]
  · have hv : get_pm25_setpoint f32Display minus100_sources = -100 := by
      simp [get_pm25_setpoint, minus100_sources, PM2_5_SETPOINT_INSTANCE,
        PM1_0_OBJECT_INSTANCE, PM2_5_OBJECT_INSTANCE, PM10_OBJECT_INSTANCE]
    have hc : f32Display.gt (f32Display.fabsf (f32Display.sub (-100) (-100)))
        f32Display.lit_0_1f = false := by
      rw [f32_step_test, sub_self, round32_zero, abs_zero, decide_eq_false_iff_not]
      norm_num
    rw [(ops_at_fields _ _ _).1.2.2.2]
    simp only [update_setpoint, display_task_start, read_current, hv]
    rw [show f32Display.lit_m100_0f = (-100 : ℚ) from rfl, hc]
    rfl

/-- The PM2.5 value read from the sample sources, in any arithmetic. -/
theorem sample_pm25 (fl : DisplayFloat ℚ) (q : ℚ) :
    get_pm25_value fl (sample_sources q) = q := by
  simp [get_pm25_value, sample_sources, PM1_0_OBJECT_INSTANCE, PM2_5_OBJECT_INSTANCE]

/-- In binary32 a rise to a value above 2^20 passes the test `fabsf(a - b) > 0.1f`. -/
theorem f32_rise_redrawn (a b : ℚ) (ha : is_f32 a = true) (hb : is_f32 b = true)
    (hab : a < b) (hbig : 1048576 < b) :
    f32Display.gt (f32Display.fabsf (f32Display.sub a b)) f32Display.lit_0_1f = true := by
  have ha2 : round32 a = a := (of_decide_eq_true ha).1
  have hb2 : round32 b = b := (of_decide_eq_true hb).1
  obtain ⟨k, hk⟩ := f32_grid_eighth b hb2 (by rw [abs_of_pos (by linarith)]; linarith)
  have hk1 : (8388608 : ℤ) < k := by
    have : ((8388608 : ℤ) : ℚ) < k := by push_cast; linarith
    exact_mod_cast this
  have hk2 : ((8388609 : ℤ) : ℚ) ≤ k := by exact_mod_cast (by omega : (8388609 : ℤ) ≤ k)
  have hd : a - b ≤ -(1 / 8) := by
    by_cases hle : a ≤ 1048576
    · push_cast at hk2
      linarith
    · have hgt : 1048576 < a := not_le.mp hle
      obtain ⟨j, hj⟩ := f32_grid_eighth a ha2 (by rw [abs_of_pos (by linarith)]; linarith)
      have hjk : j < k := by
        have : (j : ℚ) < k := by linarith
        exact_mod_cast this
      have hjk2 : ((j + 1 : ℤ) : ℚ) ≤ k := by exact_mod_cast (by omega : j + 1 ≤ k)
      push_cast at hjk2
      linarith
  have hr := round32_le_neg_eighth (a - b) hd
  rw [f32_step_test, decide_eq_true_eq, abs_of_neg (by linarith)]
  linarith

/-- The PM2.5 calls of one invocation are none exactly when the test of line 234 fails. -/
theorem pm25_ops_nil_iff {F : Type} (fl : DisplayFloat F) (src : Sources F)
    (st : DisplayState F) :
    ops_at DATA_X_PM LINE4_Y (smart_update_display fl src st).2 = []
      ↔ fl.gt (fl.fabsf (fl.sub st.last_display.pm25 (get_pm25_value fl src))) fl.lit_0_1f
          = false := by
  rw [(ops_at_fields fl src st).1.2.1]
  simp only [update_pm25, read_current]
  cases fl.gt (fl.fabsf (fl.sub st.last_display.pm25 (get_pm25_value fl src))) fl.lit_0_1f <;>
    simp

/-- Ticks whose PM2.5 value fails the test of line 234 against the value of
the tick before make no PM2.5 call, and the cache ends at the last value. -/
theorem small_steps_no_redraw {F : Type} (fl : DisplayFloat F) (srcs : List (Sources F))
    (st : DisplayState F)
    (hsmall : List.Chain (fun a b => fl.gt (fl.fabsf (fl.sub a b)) fl.lit_0_1f = false)
      st.last_display.pm25 (srcs.map (get_pm25_value fl))) :
    ops_at DATA_X_PM LINE4_Y (run_display_ops fl st srcs) = []
      ∧ (run_display fl st srcs).last_display.pm25
        = (srcs.map (get_pm25_value fl)).getLastD st.last_display.pm25 := by
  induction srcs generalizing st with
  | nil => exact ⟨rfl, rfl⟩
  | cons a rest ih =>
    rw [List.map_cons, List.chain_cons] at hsmall
    have hi := ih (smart_update_display fl a st).1 hsmall.2
    refine ⟨?_, ?_⟩
    · rw [run_display_ops, ops_at_append, (pm25_ops_nil_iff fl a st).mpr hsmall.1, hi.1]
      rfl
    · rw [run_display, hi.2]
      cases rest <;> rfl

/-- In binary32 a rising run without PM2.5 call ends at or below 2^20, or
where it started when that is higher. -/
theorem rising_run_bounded (srcs : List (Sources ℚ)) (st : DisplayState ℚ)
    (hst : is_f32 st.last_display.pm25 = true)
    (hf : ∀ src ∈ srcs, is_f32 (get_pm25_value f32Display src) = true)
    (hrise : List.Chain (fun a b => a < b) st.last_display.pm25
      (srcs.map (get_pm25_value f32Display)))
    (hno : ops_at DATA_X_PM LINE4_Y (run_display_ops f32Display st srcs) = []) :
    st.last_display.pm25 ≤ (run_display f32Display st srcs).last_display.pm25
      ∧ (run_display f32Display st srcs).last_display.pm25
          ≤ max st.last_display.pm25 1048576 := by
  induction srcs generalizing st with
  | nil => exact ⟨le_refl _, le_max_left _ _⟩
  | cons a rest ih =>
    rw [List.map_cons, List.chain_cons] at hrise
    rw [run_display_ops, ops_at_append, List.append_eq_nil] at hno
    have hfa := hf a (List.mem_cons_self a rest)
    have htest := (pm25_ops_nil_iff f32Display a st).mp hno.1
    have hb : get_pm25_value f32Display a ≤ 1048576 := by
      by_contra hc
      have := f32_rise_redrawn _ _ hst hfa hrise.1 (not_le.mp hc)
      rw [this] at htest
      exact Bool.noConfusion htest
    have hi := ih (smart_update_display f32Display a st).1 hfa
      (fun src hs => hf src (List.mem_cons_of_mem a hs)) hrise.2 hno.2
    have hm : max (smart_update_display f32Display a st).1.last_display.pm25 1048576
        = 1048576 := max_eq_right hb
    rw [hm] at hi
    rw [run_display]
    exact ⟨le_trans (le_of_lt hrise.1) hi.1, le_trans hi.2 (le_max_right _ _)⟩

/-- The state the first paint at PM2.5 = 10 leaves. -/
theorem after_first_paint_pm25 :
    (smart_update_display f32Display (sample_sources 10)
      (display_task_start f32Display)).1.last_display.pm25 = 10 :=
  sample_pm25 f32Display 10

/-- The three drift values are binary32 values. -/
theorem drift_values_f32 :
    ∀ src ∈ drift_sources, is_f32 (get_pm25_value f32Display src) = true := by
  intro src hs
  simp only [drift_sources, List.mem_cons, List.mem_singleton, List.not_mem_nil,
    or_false] at hs
  rcases hs with rfl | rfl | rfl <;> rw [sample_pm25, is_f32, decide_eq_true_eq]
  · refine ⟨round32_exact _ 3 10538189 ?_ ?_ (by norm_num) (by norm_num), ?_⟩ <;>
      rw [abs_of_pos (by norm_num)] <;> norm_num
  · refine ⟨round32_exact _ 3 10590618 ?_ ?_ (by norm_num) (by norm_num), ?_⟩ <;>
      rw [abs_of_pos (by norm_num)] <;> norm_num
  · refine ⟨round32_exact _ 3 10643046 ?_ ?_ (by norm_num) (by norm_num), ?_⟩ <;>
      rw [abs_of_pos (by norm_num)] <;> norm_num

/-- The binary32 differences along the three drift ticks and across them. -/
theorem drift_differences :
    round32 (10 - 10538189 / 1048576) = -(52429 / 1048576)
      ∧ round32 (10538189 / 1048576 - 10590618 / 1048576) = -(52429 / 1048576)
      ∧ round32 (10590618 / 1048576 - 10643046 / 1048576) = -(13107 / 262144)
      ∧ round32 (10 - 10643046 / 1048576) = -(78643 / 524288)
      ∧ round32 (-100 - 10) = -110 := by
  refine ⟨?_, ?_, ?_, ?_, ?_⟩
  · rw [show (10 : ℚ) - 10538189 / 1048576 = -(52429 / 1048576) by norm_num]
    exact round32_exact_neg _ (-5) 13421824 (by norm_num) (by norm_num) (by norm_num)
      (by norm_num)
  · rw [show (10538189 : ℚ) / 1048576 - 10590618 / 1048576 = -(52429 / 1048576) by norm_num]
    exact round32_exact_neg _ (-5) 13421824 (by norm_num) (by norm_num) (by norm_num)
      (by norm_num)
  · rw [show (10590618 : ℚ) / 1048576 - 10643046 / 1048576 = -(13107 / 262144) by norm_num]
    exact round32_exact_neg _ (-5) 13421568 (by norm_num) (by norm_num) (by norm_num)
      (by norm_num)
  · rw [show (10 : ℚ) - 10643046 / 1048576 = -(78643 / 524288) by norm_num]
    exact round32_exact_neg _ (-3) 10066304 (by norm_num) (by norm_num) (by norm_num)
      (by norm_num)
  · rw [show (-100 : ℚ) - 10 = -110 by norm_num]
    exact round32_exact_neg _ 6 14417920 (by norm_num) (by norm_num) (by norm_num)
      (by norm_num)

/-- Each of the three drift ticks fails the test of line 234 against the tick before. -/
theorem drift_steps_small :
    List.Chain (fun a b => f32Display.gt (f32Display.fabsf (f32Display.sub a b))
        f32Display.lit_0_1f = false)
      (smart_update_display f32Display (sample_sources 10)
        (display_task_start f32Display)).1.last_display.pm25
      (drift_sources.map (get_pm25_value f32Display)) := by
  rw [after_first_paint_pm25]
  simp only [drift_sources, List.map_cons, List.map_nil, sample_pm25, List.chain_cons,
    f32_step_test, drift_differences.1, drift_differences.2.1, drift_differences.2.2.1,
    abs_neg]
  refine ⟨?_, ?_, ?_, List.Chain.nil⟩ <;> rw [abs_of_pos (by norm_num)] <;> norm_num

/-- C27 (counterexample): in binary32 the distance between the value on
screen and the current value does not grow without bound.  After the first
paint at PM2.5 = 10 there is no run of ticks over binary32 values, each above
the one before and none of them redrawn, that ends more than 2^20 - 10 away
from the 10 on screen: binary32 values above 2^20 are multiples of 0.125, so
a rise to one of them exceeds `0.1f` and is redrawn. -/
theorem C27_drift_gap_is_bounded :
    ¬ ∃ srcs : List (Sources ℚ),
        (∀ src ∈ srcs, is_f32 (get_pm25_value f32Display src) = true)
        ∧ List.Chain (fun a b => a < b) 10 (srcs.map (get_pm25_value f32Display))
        ∧ ops_at DATA_X_PM LINE4_Y
            (run_display_ops f32Display
              (smart_update_display f32Display (sample_sources 10)
                (display_task_start f32Display)).1 srcs) = []
        ∧ 1048566 < |10 - (run_display f32Display
              (smart_update_display f32Display (sample_sources 10)
                (display_task_start f32Display)).1 srcs).last_display.pm25| := by
  rintro ⟨srcs, hf, hrise, hno, hgap⟩
  have h10 : is_f32 (10 : ℚ) = true := by
    rw [is_f32, decide_eq_true_eq]
    refine ⟨round32_exact _ 3 10485760 ?_ ?_ (by norm_num) (by norm_num), ?_⟩ <;>
      rw [abs_of_pos (by norm_num)] <;> norm_num
  have hb := rising_run_bounded srcs
    (smart_update_display f32Display (sample_sources 10) (display_task_start f32Display)).1
    (by rw [after_first_paint_pm25]; exact h10)
    hf (by rw [after_first_paint_pm25]; exact hrise) hno
  rw [after_first_paint_pm25, max_eq_right (by norm_num)] at hb
  rw [abs_sub_comm, abs_of_nonneg (by linarith [hb.1])] at hgap
  linarith [hb.2]

/-- C27 (amended): because the cache is overwritten on every tick, slow drift
is not redrawn.  In any arithmetic, ticks whose PM2.5 value fails the test
`fabsf(previous - current) > 0.1f` against the value of the tick before make
no PM2.5 call, and the cache ends at the last value.  In binary32, after the
first paint has drawn `10.0 ug/m3`, the three ticks with the binary32 values
nearest to 10.05, 10.10 and 10.15 (each a binary32 value above the one
before) are such ticks: nothing is redrawn at the PM2.5 position, the cache
ends at the third value, and that value is more than `0.1f` away from the 10
on screen.  The distance is bounded: a rising run over binary32 values
without PM2.5 call ends at or below 2^20, or where it started when that is
higher. -/
theorem C27_slow_drift_never_redrawn {F : Type} (fl : DisplayFloat F) (st : DisplayState F)
    (srcs : List (Sources F))
    (hsmall : List.Chain (fun a b => fl.gt (fl.fabsf (fl.sub a b)) fl.lit_0_1f = false)
      st.last_display.pm25 (srcs.map (get_pm25_value fl))) :
    (ops_at DATA_X_PM LINE4_Y (run_display_ops fl st srcs) = []
      ∧ (run_display fl st srcs).last_display.pm25
        = (srcs.map (get_pm25_value fl)).getLastD st.last_display.pm25)
    ∧ (ops_at DATA_X_PM LINE4_Y
          (smart_update_display f32Display (sample_sources 10)
            (display_task_start f32Display)).2
          = [DisplayOp.fill_rect DATA_X_PM LINE4_Y 80 LINE_HEIGHT DISP_BLACK,
             DisplayOp.draw_string DATA_X_PM LINE4_Y "10.0 ug/m3" DISP_GREEN DISP_BLACK]
      ∧ (∀ src ∈ drift_sources, is_f32 (get_pm25_value f32Display src) = true)
      ∧ List.Chain (fun a b => a < b) 10 (drift_sources.map (get_pm25_value f32Display))
      ∧ ops_at DATA_X_PM LINE4_Y
          (run_display_ops f32Display
            (smart_update_display f32Display (sample_sources 10)
              (display_task_start f32Display)).1 drift_sources) = []
      ∧ (run_display f32Display
            (smart_update_display f32Display (sample_sources 10)
              (display_task_start f32Display)).1 drift_sources).last_display.pm25
          = 10643046 / 1048576
      ∧ f32Display.gt (f32Display.fabsf (f32Display.sub 10 (10643046 / 1048576)))
          f32Display.lit_0_1f = true)
    ∧ (∀ (st0 : DisplayState ℚ) (ticks : List (Sources ℚ)),
        is_f32 st0.last_display.pm25 = true →
        (∀ src ∈ ticks, is_f32 (get_pm25_value f32Display src) = true) →
        List.Chain (fun a b => a < b) st0.last_display.pm25
          (ticks.map (get_pm25_value f32Display)) →
        ops_at DATA_X_PM LINE4_Y (run_display_ops f32Display st0 ticks) = [] →
        (run_display f32Display st0 ticks).last_display.pm25
          ≤ max st0.last_display.pm25 1048576) := by
  have hd := small_steps_no_redraw f32Display drift_sources _ drift_steps_small
  refine ⟨small_steps_no_redraw fl srcs st hsmall, ⟨?_, drift_values_f32, ?_, hd.1, ?_, ?_⟩, ?_⟩
  · rw [(ops_at_fields _ _ _).1.2.1]
    have hc : f32Display.gt (f32Display.fabsf (f32Display.sub (-100) 10))
        f32Display.lit_0_1f = true := by
      rw [f32_step_test, drift_differences.2.2.2.2, abs_neg, abs_of_pos (by norm_num)]
      norm_num
    have hfmt : fmt_tenths 10 = "10.0 ug/m3" := by
      have hr : round_half_even (|(10 : ℚ)| * 10) = 100 := by
        rw [abs_of_pos (by norm_num)]
        exact round_half_even_eq _ _ (by norm_num) (by norm_num)
      simp only [fmt_tenths, hr]
      norm_num
      decide
    have hcol : pm25_color f32Display 10 = DISP_GREEN := by
      simp only [pm25_color, f32Display, decide_eq_true_eq]
      norm_num
    simp only [update_pm25, display_task_start, read_current, sample_pm25]
    rw [show f32Display.lit_m100_0f = (-100 : ℚ) from rfl, if_pos hc, hcol,
      show f32Display.fmt_1f = fmt_tenths from rfl, hfmt]
  · simp only [drift_sources, List.map_cons, List.map_nil, sample_pm25, List.chain_cons]
    refine ⟨?_, ?_, ?_, List.Chain.nil⟩ <;> norm_num
  · rw [hd.2]
    simp [drift_sources, sample_pm25, List.getLastD]
  · rw [f32_step_test, drift_differences.2.2.2.1, abs_neg, abs_of_pos (by norm_num)]
    norm_num
  · intro st0 ticks h1 h2 h3 h4
    exact (rising_run_bounded ticks st0 h1 h2 h3 h4).2

/-- C27 (amended) at the three drift ticks in binary32: after the first paint
at PM2.5 = 10 each of the ticks at 10.05, 10.10 and 10.15 fails the test
against the tick before, so no PM2.5 call is made and the cache ends at the
last of the three values, which is more than `0.1f` away from 10. -/
theorem C27_slow_drift_never_redrawn_witness :
    List.Chain (fun a b => f32Display.gt (f32Display.fabsf (f32Display.sub a b))
        f32Display.lit_0_1f = false)
      (smart_update_display f32Display (sample_sources 10)
        (display_task_start f32Display)).1.last_display.pm25
      (drift_sources.map (get_pm25_value f32Display))
    ∧ ops_at DATA_X_PM LINE4_Y
        (run_display_ops f32Display
          (smart_update_display f32Display (sample_sources 10)
            (display_task_start f32Display)).1 drift_sources) = []
    ∧ (run_display f32Display
          (smart_update_display f32Display (sample_sources 10)
            (display_task_start f32Display)).1 drift_sources).last_display.pm25
        = (drift_sources.map (get_pm25_value f32Display)).getLastD
            (smart_update_display f32Display (sample_sources 10)
              (display_task_start f32Display)).1.last_display.pm25
    ∧ f32Display.gt (f32Display.fabsf (f32Display.sub 10 (10643046 / 1048576)))
        f32Display.lit_0_1f = true :=
  ⟨drift_steps_small,
   (C27_slow_drift_never_redrawn f32Display
      (smart_update_display f32Display (sample_sources 10) (display_task_start f32Display)).1
      drift_sources drift_steps_small).1.1,
   (C27_slow_drift_never_redrawn f32Display
      (smart_update_display f32Display (sample_sources 10) (display_task_start f32Display)).1
      drift_sources drift_steps_small).1.2,
   (C27_slow_drift_never_redrawn f32Display
      (smart_update_display f32Display (sample_sources 10) (display_task_start f32Display)).1
      drift_sources drift_steps_small).2.1.2.2.2.2.2⟩

end DisplayTask

namespace DisplayDriver

/-! ## Rectangle clamping -/

/-- C29: every `esp_lcd_panel_draw_bitmap` call `display_fill_rect` makes is a
one-row window inside the 170x320 surface: it starts at the clamped `x`, is
as wide as the clamped width, which is positive, ends at or before column
170, and lies on a row from 0 to 319; the number of calls is the clamped
height when the panel and the line buffer exist and the clamped width and
height are positive, and zero otherwise. -/
theorem C29_fill_rect_inside_surface (panel line_ok : Bool) (x y width height : Int)
    (color : Nat) :
    (∀ call ∈ display_fill_rect panel line_ok x y width height color,
        0 ≤ call.x_start ∧ call.x_start < call.x_end ∧ call.x_end ≤ DISPLAY_WIDTH
          ∧ 0 ≤ call.y_start ∧ call.y_start < DISPLAY_HEIGHT
          ∧ call.y_end = call.y_start + 1
          ∧ call.x_start = clamp_x x
          ∧ call.x_end = clamp_x x + clamp_width x width
          ∧ 0 < clamp_width x width)
      ∧ (display_fill_rect panel line_ok x y width height color).length
        = (if panel = true ∧ line_ok = true ∧ 0 < clamp_width x width
              ∧ 0 < clamp_height y height
            then (clamp_height y height).toNat else 0) := by
  constructor
  · intro call hcall
    unfold display_fill_rect at hcall
    cases panel
    · simp at hcall
    · simp only [Bool.not_true, Bool.false_eq_true, if_false] at hcall
      by_cases hz : clamp_width x width ≤ 0 ∨ clamp_height y height ≤ 0
      · simp [hz] at hcall
      · rw [if_neg hz] at hcall
        cases line_ok
        · simp at hcall
        · simp only [Bool.not_true, Bool.false_eq_true, if_false, List.mem_map,
            List.mem_range] at hcall
          obtain ⟨row, hrow, rfl⟩ := hcall
          have hw : 0 < clamp_width x width := by
            by_contra h
            exact hz (Or.inl (by omega))
          have hh : 0 < clamp_height y height := by
            by_contra h
            exact hz (Or.inr (by omega))
          have htn := Int.toNat_of_nonneg (le_of_lt hh)
          have hrow2 : Int.ofNat row < clamp_height y height := by
            have : (row : Int) < ((clamp_height y height).toNat : Int) := by exact_mod_cast hrow
            simpa [htn] using this
          have hrow0 : 0 ≤ Int.ofNat row := Int.ofNat_nonneg row
          have hx0 : 0 ≤ clamp_x x := by
            unfold clamp_x
            split_ifs <;> omega
          have hy0 : 0 ≤ clamp_y y := by
            unfold clamp_y
            split_ifs <;> omega
          have hxe : clamp_x x + clamp_width x width ≤ DISPLAY_WIDTH := by
            unfold clamp_width DISPLAY_WIDTH
            split_ifs with h
            · omega
            · unfold DISPLAY_WIDTH at h
              omega
          have hye : clamp_y y + clamp_height y height ≤ DISPLAY_HEIGHT := by
            unfold clamp_height DISPLAY_HEIGHT
            split_ifs with h
            · omega
            · unfold DISPLAY_HEIGHT at h
              omega
          refine ⟨hx0, ?_, hxe, ?_, ?_, rfl, rfl, rfl, hw⟩
          · show clamp_x x < clamp_x x + clamp_width x width
            omega
          · show 0 ≤ clamp_y y + Int.ofNat row
            omega
          · show clamp_y y + Int.ofNat row < DISPLAY_HEIGHT
            omega
  · unfold display_fill_rect
    cases panel
    · simp
    · cases line_ok
      · by_cases hz : clamp_width x width ≤ 0 ∨ clamp_height y height ≤ 0 <;> simp [hz]
      · by_cases hz : clamp_width x width ≤ 0 ∨ clamp_height y height ≤ 0
        · have hn : ¬ (0 < clamp_width x width ∧ 0 < clamp_height y height) := by
            rintro ⟨h1, h2⟩
            rcases hz with h | h <;> omega
          simp [hz, hn]
        · have hp : 0 < clamp_width x width ∧ 0 < clamp_height y height := by
            constructor <;> by_contra h
            · exact hz (Or.inl (by omega))
            · exact hz (Or.inr (by omega))
          simp [hz, hp]

end DisplayDriver
